import Mathlib

/-!
Verification development for the AIDA response validation and scoring pipeline.

The definitions below are a shallow embedding of the Python sources under
`src/python`.  Python dictionaries are modelled as insertion-ordered
association lists, Python `None` as `Option.none`, floats as rationals,
raised exceptions as `Except PyErr`, and the event log of the shared logger
as an explicit list of events returned alongside each result.  Helper
functions of `aida/utility.py` (which is not part of the sources given)
are either taken as parameters or modelled from the specification, as
marked in their doc comments.
-/

namespace Aida

/-! ## Python-style primitives -/

/-- Python exceptions that the embedded code can raise. -/
inductive PyErr where
  | typeError
  | valueError
  | nameError
deriving DecidableEq

instance {ε α : Type} [DecidableEq ε] [DecidableEq α] : DecidableEq (Except ε α) := fun a b =>
  match a, b with
  | .ok x, .ok y => if h : x = y then .isTrue (by rw [h]) else .isFalse (by simp [h])
  | .error x, .error y => if h : x = y then .isTrue (by rw [h]) else .isFalse (by simp [h])
  | .ok _, .error _ => .isFalse (by simp)
  | .error _, .ok _ => .isFalse (by simp)

/-- Python string comparison `a < b` (lexicographic on code points). -/
def pyCharsLt : List Char → List Char → Bool
  | [], [] => false
  | [], _ :: _ => true
  | _ :: _, [] => false
  | a :: as, b :: bs =>
    if a.toNat < b.toNat then true
    else if b.toNat < a.toNat then false
    else pyCharsLt as bs

/-- Python string comparison `a < b` on `String`. -/
def pyStrLt (a b : String) : Bool := pyCharsLt a.data b.data

/-- Insert `x` into `l` in front of the first element `y` with `lt x y`;
equal elements keep their original relative order, as in Python's stable
`sort`. -/
def insertByLt {α : Type} (lt : α → α → Bool) (x : α) : List α → List α
  | [] => [x]
  | y :: ys => if lt x y then x :: y :: ys else y :: insertByLt lt x ys

/-- Stable sort by the strict comparator `lt`, modelling Python's `sorted`. -/
def sortByLt {α : Type} (lt : α → α → Bool) (l : List α) : List α :=
  l.foldl (fun acc x => insertByLt lt x acc) []

/-- `pySplit sep s`: Python `s.split(sep)` for a one-character separator
(auxiliary recursion on the characters, accumulating the current piece). -/
def pySplitAux (sep : Char) : List Char → List Char → List String
  | [], cur => [⟨cur.reverse⟩]
  | c :: cs, cur =>
    if c == sep then ⟨cur.reverse⟩ :: pySplitAux sep cs [] else pySplitAux sep cs (c :: cur)

/-- Python `s.split(sep)` for a one-character separator. -/
def pySplit (sep : Char) (s : String) : List String := pySplitAux sep s.data []

/-- Python truthiness of an optional integer field: `None` and `0` are falsy. -/
def pyTruthy : Option Int → Bool
  | none => false
  | some n => n != 0

/-- Python `a < b` for an optional integer against an integer: comparing
`None` with an `int` raises `TypeError`. -/
def pyLtOpt : Option Int → Option Int → Except PyErr Bool
  | some a, some b => .ok (a < b)
  | _, _ => .error .typeError

/-- Python `a == b` for optional integers (`==` never raises; `None` equals
only `None`). -/
def pyEqOpt : Option Int → Option Int → Bool
  | some a, some b => a == b
  | none, none => true
  | _, _ => false

/-! ## Validator events (`aida/validator.py`)

Each constructor is one `record_event` category used by the embedded rules,
carrying the arguments passed at the call site. -/

/-- One logged validation event. -/
inductive VEvent where
  | INVALID_CONFIDENCE (value : String ⊕ ℚ) (loc : String)
  | INVALID_DATE (cluster_id : String) (attribute_name : String) (loc : String)
  | INVALID_DATE_RANGE (claim_or_cluster : String) (item_id : String)
      (start_or_end_after : String) (start_or_end_before : String) (loc : String)
  | IMPROPER_COMPOUND_JUSTIFICATION (value : String) (loc : String)
deriving DecidableEq

/-- The string arguments carried by an event, used to ask what a logged
event reports. -/
def eventStrings : VEvent → List String
  | .INVALID_CONFIDENCE (.inl v) loc => [v, loc]
  | .INVALID_CONFIDENCE (.inr _) loc => [loc]
  | .INVALID_DATE c a loc => [c, a, loc]
  | .INVALID_DATE_RANGE t i a b loc => [t, i, a, b, loc]
  | .IMPROPER_COMPOUND_JUSTIFICATION v loc => [v, loc]

/-! ## Confidence parsing and `validate_confidence` -/

/-- Numeric value of a list of decimal digit characters. -/
def digitsToNat (l : List Char) : ℕ :=
  l.foldl (fun n c => 10 * n + (c.toNat - 48)) 0

/-- Parse an unsigned decimal numeral (digits with at most one dot, at
least one digit overall), as accepted by Python's `float`. -/
def parseUnsignedChars (l : List Char) : Option ℚ :=
  let a := l.takeWhile (fun c => c ≠ '.')
  let r := l.dropWhile (fun c => c ≠ '.')
  if r = [] then
    if a ≠ [] ∧ a.all Char.isDigit then some (digitsToNat a) else none
  else
    let b := r.tail
    if (a ≠ [] ∨ b ≠ []) ∧ a.all Char.isDigit ∧ b.all Char.isDigit ∧ ¬ b.contains '.' then
      some ((digitsToNat a : ℚ) + (digitsToNat b : ℚ) / (10 ^ b.length))
    else none

/-- Parse a signed decimal numeral. -/
def parseDecimal : List Char → Option ℚ
  | '-' :: rest => (parseUnsignedChars rest).map Neg.neg
  | '+' :: rest => parseUnsignedChars rest
  | l => parseUnsignedChars l

/-- Python whitespace, as stripped by `str.strip()`. -/
def isPySpace (c : Char) : Bool :=
  c == ' ' || c == '\t' || c == '\n' || c == '\r' || c == '\x0b' || c == '\x0c'

/-- Python `str.strip()`: drop leading and trailing whitespace. -/
def pyStrip (l : List Char) : List Char :=
  ((l.dropWhile isPySpace).reverse.dropWhile isPySpace).reverse

/-- Modelled from the spec: `trim_cv` of `aida/utility.py` is not under
`src/`.  Per the spec a confidence "must parse as a number"; the stored
field is a possibly quoted decimal numeral.  This models: strip surrounding
whitespace, drop double-quote characters, and parse the rest as a signed
decimal number; `none` models Python's `ValueError`. -/
def trim_cv (s : String) : Option ℚ :=
  parseDecimal ((pyStrip s.data).filter (fun c => c ≠ '"'))

/-- The special `NULL` bypass at the head of `validate_confidence`
(`validator.py:498-499`). -/
def confNullBypass (task schema_name attribute_name v : String) : Bool :=
  task == "task3" && schema_name == "AIDA_PHASE2_TASK3_GR_RESPONSE" &&
    attribute_name == "predicate_justification_confidence" && v == "NULL"

/-- Result of `Validator.validate_confidence`: the returned boolean, the
value stored back into the entry's attribute, and the logged events. -/
structure ConfResult where
  valid : Bool
  stored : String
  events : List VEvent
deriving DecidableEq

/-- `Validator.validate_confidence` (`validator.py:496-510`).  `task` and
`schema_name` come from the entry's schema, `attribute_name` is the
confidence attribute, `v` the attribute's current value, `loc` the entry's
`where` field. -/
def validate_confidence (task schema_name attribute_name : String) (v : String)
    (loc : String) : ConfResult :=
  if confNullBypass task schema_name attribute_name v then
    ⟨true, v, []⟩
  else
    match trim_cv v with
    | none =>
      -- ValueError: log, repair to 1.0 (the subsequent range check on 1.0 passes)
      ⟨true, "\"1.0\"", [.INVALID_CONFIDENCE (.inl v) loc]⟩
    | some value =>
      if ¬ (0 < value ∧ value ≤ 1) then
        ⟨true, "\"1.0\"", [.INVALID_CONFIDENCE (.inr value) loc]⟩
      else
        ⟨true, v, []⟩

/-- Whether a confidence string parses to a value in `(0, 1]`. -/
def confOk (v : String) : Bool :=
  match trim_cv v with
  | some q => decide (0 < q ∧ q ≤ 1)
  | none => false

/-! ## Dates: `validate_date`, `validate_before_and_after_dates`,
`validate_date_range`, `validate_date_start_and_end` -/

/-- A (possibly partial) date object attached to an entry. -/
structure PyDate where
  year : Option Int
  month : Option Int
  day : Option Int
deriving DecidableEq

/-- `datetime.date(y, m, d)` succeeds (proleptic Gregorian calendar,
years 1..9999). -/
def isValidGregorianDate (y m d : Int) : Bool :=
  let leap := (y % 4 == 0 && y % 100 != 0) || y % 400 == 0
  let dim : Int :=
    if m == 2 then (if leap then 29 else 28)
    else if m == 4 || m == 6 || m == 9 || m == 11 then 30
    else 31
  1 ≤ y && y ≤ 9999 && 1 ≤ m && m ≤ 12 && 1 ≤ d && d ≤ dim

/-- `Validator.validate_date` (`validator.py:355-374`).  The `try/except`
around `datetime.date` is modelled by `isValidGregorianDate`; the bare
comparison `year < 0` is `pyLtOpt`, which raises `TypeError` when the year
is `None`, exactly as Python does. -/
def validate_date (cluster_id attribute_name loc : String)
    (date_object : Option PyDate) : Except PyErr (Bool × List VEvent) :=
  match date_object with
  | none => .ok (true, [])
  | some d =>
    if pyTruthy d.year && pyTruthy d.month && pyTruthy d.day then
      if isValidGregorianDate (d.year.getD 0) (d.month.getD 0) (d.day.getD 0) then
        .ok (true, [])
      else
        .ok (false, [.INVALID_DATE cluster_id attribute_name loc])
    else do
      let yneg ← pyLtOpt d.year (some 0)
      if yneg then
        .ok (false, [.INVALID_DATE cluster_id attribute_name loc])
      else if pyTruthy d.month && ¬ (1 ≤ d.month.getD 0 ∧ d.month.getD 0 ≤ 12) then
        .ok (false, [.INVALID_DATE cluster_id attribute_name loc])
      else
        .ok (true, [])

/-- `Validator.validate_before_and_after_dates` (`validator.py:321-341`).
The source computes a local `problem_field` (`'year'`/`'month'`/`'day'`)
alongside `valid`, but the logged `INVALID_DATE_RANGE` event only carries
the claim/cluster tag, the item id, and the two date-field names. -/
def validate_before_and_after_dates (schema_name claim_uid subject_cluster_id loc : String)
    (start_or_end_before : String) (before : PyDate)
    (start_or_end_after : String) (after : PyDate) : Except PyErr (Bool × List VEvent) := do
  let invalidEvent : VEvent :=
    if schema_name == "AIDA_PHASE3_TASK3_CT_RESPONSE" ∨
        schema_name == "AIDA_PHASE3_TASK3_TM_RESPONSE" then
      .INVALID_DATE_RANGE "Claim" claim_uid start_or_end_after start_or_end_before loc
    else
      .INVALID_DATE_RANGE "Cluster" subject_cluster_id start_or_end_after start_or_end_before loc
  let yearLt ← pyLtOpt before.year after.year
  if yearLt then
    .ok (false, [invalidEvent])
  else if pyEqOpt before.year after.year then
    if pyTruthy before.month && pyTruthy after.month then
      if before.month.getD 0 < after.month.getD 0 then
        .ok (false, [invalidEvent])
      else if pyEqOpt before.month after.month then
        if pyTruthy before.day && pyTruthy after.day &&
            decide (before.day.getD 0 < after.day.getD 0) then
          .ok (false, [invalidEvent])
        else
          .ok (true, [])
      else
        .ok (true, [])
    else
      .ok (true, [])
  else
    .ok (true, [])

/-- `Validator.validate_date_range` (`validator.py:376-382`): looks up
`<attribute>_after` and `<attribute>_before` and compares them when both
are present. -/
def validate_date_range (schema_name claim_uid subject_cluster_id loc : String)
    (attribute_name : String) (after before : Option PyDate) :
    Except PyErr (Bool × List VEvent) :=
  match after, before with
  | some a, some b =>
    validate_before_and_after_dates schema_name claim_uid subject_cluster_id loc
      (attribute_name ++ "_before") b (attribute_name ++ "_after") a
  | _, _ => .ok (true, [])

/-- `Validator.validate_date_start_and_end` (`validator.py:343-353`):
compares `date.start.after` with `date.end.before` when both are present
(the intermediate `date`/`start`/`end` containers are collapsed into the
two optional dates). -/
def validate_date_start_and_end (schema_name claim_uid subject_cluster_id loc : String)
    (start_after end_before : Option PyDate) : Except PyErr (Bool × List VEvent) :=
  match start_after, end_before with
  | some sa, some eb =>
    validate_before_and_after_dates schema_name claim_uid subject_cluster_id loc
      "end_before" eb "start_after" sa
  | _, _ => .ok (true, [])

/-- Spec-side formulation of "the before date precedes the after date at the
first compared field that differs": year first, then month (only when both
are present and nonzero), then day likewise. -/
def datePrecedes (before after : PyDate) : Bool :=
  match before.year, after.year with
  | some yb, some ya =>
    yb < ya ||
      (yb == ya && pyTruthy before.month && pyTruthy after.month &&
        (before.month.getD 0 < after.month.getD 0 ||
          (pyEqOpt before.month after.month && pyTruthy before.day && pyTruthy after.day &&
            decide (before.day.getD 0 < after.day.getD 0))))
  | _, _ => false

/-! ## `validate_value_provenance_triples` (`validator.py:392-406`)

`validate_provenance` touches the corpus tables and mutates the entry; it
is taken as a parameter `vp : String → Bool → σ → Bool × σ × List VEvent`
(provenance string, `apply_correction`, entry state ↦ verdict, new entry
state, logged events), so the compound-justification logic can be studied
for every provenance validator. -/

/-- The `for provenance in provenances: if not validate_provenance(...):
return False` loop: validate each segment in order with the fixed
`apply_correction` flag, stopping at the first failure. -/
def vppLoop {σ : Type} (vp : String → Bool → σ → Bool × σ × List VEvent)
    (apply_correction : Bool) : List String → σ → List VEvent → Bool × σ × List VEvent
  | [], st, evs => (true, st, evs)
  | p :: ps, st, evs =>
    let r := vp p apply_correction st
    if r.1 then vppLoop vp apply_correction ps r.2.1 (evs ++ r.2.2)
    else (false, r.2.1, evs ++ r.2.2)

/-- `Validator.validate_value_provenance_triples` (`validator.py:392-406`). -/
def validate_value_provenance_triples {σ : Type}
    (vp : String → Bool → σ → Bool × σ × List VEvent) (value : String) (loc : String)
    (st : σ) : Bool × σ × List VEvent :=
  let provenances := pySplit ';' value
  let apply_correction := provenances.length == 1
  if provenances.length > 2 then
    (false, st, [.IMPROPER_COMPOUND_JUSTIFICATION value loc])
  else
    vppLoop vp apply_correction provenances st []

/-! ## Type metric, variant 2 (`aida/type_metric_v2_scorer.py`) -/

/-- One logged scorer event (`record_event` calls reachable from
`TypeMetricScorerV2.score_responses`). -/
inductive SEvent where
  | ANNOTATED_TYPES_INFO (document_id : String) (types : String)
  | TYPE_METRIC_AP_RANKED_LIST (scorer document_id gold_cluster_id system_cluster_id : String)
      (num_ground_truth rank : ℕ) (entity_type label : String) (weight num_correct : ℕ)
      (sum_precision : ℚ)
  | TYPE_METRIC_SCORE_INFO (scorer tag document_id gold_cluster_id gold_types
      system_cluster_id system_types : String)
  | UNEXPECTED_ALIGNED_CLUSTER_METATYPE (system_metatype system_cluster_id
      gold_metatype gold_cluster_id : String)
  | DEFAULT_CRITICAL_ERROR (msg : String)
deriving DecidableEq

/-- A ranked type with its weight. -/
structure TypeWeight where
  entity_type : String
  weight : ℕ
deriving DecidableEq

instance : Inhabited TypeWeight := ⟨⟨"", 0⟩⟩

/-- `TypeMetricScorerV2.get_type_weight` (`type_metric_v2_scorer.py:76-80`):
the number of distinct `mention_span_text` values among the entries
asserting the type. -/
def get_type_weight (entries : List String) : ℕ :=
  entries.eraseDups.length

/-- Modelled from the spec: `multisort` of `aida/utility.py` is not under
`src/`.  Per the spec, the ranking sorts "by `(weight desc, item-name asc)`
— ties broken lexicographically for determinism", which this realizes as a
stable sort under the strict order: heavier first, name-ascending among
equal weights. -/
def multisortTypeWeights (l : List TypeWeight) : List TypeWeight :=
  sortByLt
    (fun a b => b.weight < a.weight || (a.weight == b.weight && pyStrLt a.entity_type b.entity_type))
    l

/-- Accumulator of the ranking loop in `get_average_precision`:
`rank`, `num_correct`, `sum_precision` and the events logged so far. -/
structure APAcc where
  rank : ℕ
  num_correct : ℕ
  sum_precision : ℚ
  events : List SEvent
deriving DecidableEq

/-- One iteration of the ranking loop of
`TypeMetricScorerV2.get_average_precision` (`type_metric_v2_scorer.py:48-56`);
`get_relevance_weight` returns 1 in this variant. -/
def apLoopStep (goldTypes : List String)
    (document_id gold_cluster_id system_cluster_id : String) (num_ground_truth : ℕ)
    (st : APAcc) (tw : TypeWeight) : APAcc :=
  let rank := st.rank + 1
  if goldTypes.contains tw.entity_type then
    let num_correct := st.num_correct + 1
    let sum_precision := st.sum_precision + (num_correct : ℚ) / (rank : ℚ)
    { rank, num_correct, sum_precision,
      events := st.events ++ [.TYPE_METRIC_AP_RANKED_LIST "TypeMetricScorerV2" document_id
        gold_cluster_id system_cluster_id num_ground_truth rank tw.entity_type "RIGHT"
        tw.weight num_correct sum_precision] }
  else
    { st with
      rank := rank,
      events := st.events ++ [.TYPE_METRIC_AP_RANKED_LIST "TypeMetricScorerV2" document_id
        gold_cluster_id system_cluster_id num_ground_truth rank tw.entity_type "WRONG"
        tw.weight st.num_correct st.sum_precision] }

/-- `TypeMetricScorerV2.get_average_precision`
(`type_metric_v2_scorer.py:34-59`).  The augmented type dictionaries are
association lists `type ↦ entries`, an entry being its `mention_span_text`. -/
def get_average_precision (document_id gold_cluster_id system_cluster_id : String)
    (augmented_gold_types augmented_system_types : List (String × List String)) :
    ℚ × List SEvent :=
  let type_weights := augmented_system_types.map fun p => TypeWeight.mk p.1 (get_type_weight p.2)
  let goldTypes := augmented_gold_types.map Prod.fst
  let num_ground_truth := augmented_gold_types.length
  let final := (multisortTypeWeights type_weights).foldl
    (apLoopStep goldTypes document_id gold_cluster_id system_cluster_id num_ground_truth)
    ⟨0, 0, 0, []⟩
  (if num_ground_truth ≠ 0 then final.sum_precision / (num_ground_truth : ℚ) else 0,
   final.events)

/-- Spec-side count of gold hits among the first `r` ranks of the sorted
list `l`. -/
def numCorrectAt (goldTypes : List String) (l : List TypeWeight) (r : ℕ) : ℕ :=
  ((l.take r).filter (fun tw => goldTypes.contains tw.entity_type)).length

/-- Spec-side sum of precisions at gold ranks: at every 1-based rank `r`
of `l` whose type is a gold type, precision `numCorrectAt r / r` is
accumulated. -/
def apSumSpec (goldTypes : List String) (l : List TypeWeight) : ℚ :=
  ((List.range l.length).map fun i =>
    if goldTypes.contains (l.getD i default).entity_type then
      (numCorrectAt goldTypes l (i + 1) : ℚ) / ((i : ℚ) + 1)
    else 0).sum

/-! ## Score aggregation (`aida/scorer.py`) -/

/-- A raw per-unit score row, as seen by `Scorer.aggregate_scores`: only its
`language`, `metatype` and a numeric payload matter here. -/
structure RawScore where
  language : String
  metatype : String
  value : ℚ
deriving DecidableEq

/-- An aggregate score row synthesized by `Scorer.aggregate_scores`
(`score_class(..., aggregate=True, language=…, metatype=…, summary=True,
elements=Container(...))`). -/
structure AggScore where
  language : String
  metatype : String
  run_id : String
  elements : List RawScore
deriving DecidableEq

/-- `Scorer.get_languages` (`scorer.py:42-50`): the score's own language,
plus `'ALL'` unless some score in the collection already has language
`'ALL'`. -/
def get_languages (score : RawScore) (scores : List RawScore) : List String :=
  let flag := scores.foldl (fun f element => if element.language == "ALL" then false else f) true
  if flag then [score.language, "ALL"] else [score.language]

/-- `Scorer.get_metatypes` (`scorer.py:52-60`). -/
def get_metatypes (score : RawScore) (scores : List RawScore) : List String :=
  let flag := scores.foldl (fun f element => if element.metatype == "ALL" then false else f) true
  if flag then [score.metatype, "ALL"] else [score.metatype]

/-- The body of the innermost loop of `Scorer.aggregate_scores`
(`scorer.py:69-79`): create the `group_by` bucket if absent, then add the
score to its `elements`. -/
def addScoreToAgg (aggs : List (String × AggScore)) (key language metatype run_id : String)
    (score : RawScore) : List (String × AggScore) :=
  if aggs.any (fun kv => kv.1 == key) then
    aggs.map fun kv =>
      if kv.1 == key then (kv.1, { kv.2 with elements := kv.2.elements ++ [score] }) else kv
  else
    aggs ++ [(key, { language := language, metatype := metatype, run_id := run_id,
                     elements := [score] })]

/-- `Scorer.order` (`scorer.py:83-87`): the sort key
`'{language}:{metatype}'` with `'ALL'` replaced by `'_ALL'`. -/
def orderKey (a : AggScore) : String :=
  (if a.language == "ALL" then "_ALL" else a.language) ++ ":" ++
    (if a.metatype == "ALL" then "_ALL" else a.metatype)

/-- `Scorer.aggregate_scores` (`scorer.py:62-81`): every raw score is added
to the bucket of each applicable `(language, metatype)` group; the buckets
(an insertion-ordered dict keyed by `language + ',' + metatype`) are then
sorted by `Scorer.order` and appended after the raw rows.  The result is
the pair (raw rows, appended aggregate rows). -/
def aggProcessScore (run_id : String) (scores : List RawScore)
    (aggs : List (String × AggScore)) (score : RawScore) : List (String × AggScore) :=
  (get_languages score scores).foldl
    (fun aggs language =>
      (get_metatypes score scores).foldl
        (fun aggs metatype =>
          addScoreToAgg aggs (language ++ "," ++ metatype) language metatype run_id score)
        aggs)
    aggs

def aggregate_scores (run_id : String) (scores : List RawScore) :
    List RawScore × List AggScore :=
  let aggregates := scores.foldl (aggProcessScore run_id scores) []
  (scores, sortByLt (fun a b => pyStrLt (orderKey a) (orderKey b)) (aggregates.map Prod.snd))

/-- A concrete (non-summary) group value: not the reserved `"ALL"`, no
comma (the `group_by` separator), and every character precedes `'_'`
(code point 95) — true of the corpus's language codes (`ENG`, `RUS`, …)
and metatypes (`Entity`, `Relation`, `Event`). -/
def concreteGroupValue (s : String) : Prop :=
  s ≠ "ALL" ∧ ',' ∉ s.data ∧ ∀ c ∈ s.data.take 1, c.toNat < 95

instance (s : String) : Decidable (concreteGroupValue s) := by
  unfold concreteGroupValue
  infer_instance

/-! ## `TypeMetricScorerV2.score_responses` (`type_metric_v2_scorer.py:82-151`)

The external collaborators (gold/system response sets, alignment,
annotated regions) are collapsed into the state below.  Per the spec's
interface section, container lookups that miss "default to empty
containers": cluster metatypes are `Option String`, type dictionaries
default to `[]`.  `get_augmented_type` of `aida/utility.py` is not under
`src/` and is taken as the parameter `gat`. -/

/-- One alignment-table entry: `{aligned_to, aligned_similarity}`. -/
structure AlignEntry where
  aligned_to : String
  aligned_similarity : ℚ
deriving DecidableEq

/-- A per-unit row of the V2 type metric (`TypeMetricScoreV23`). -/
structure ScoreRow where
  run_id : String
  document_id : String
  language : String
  metatype : String
  gold_cluster_id : String
  system_cluster_id : String
  average_precision : ℚ
deriving DecidableEq

/-- The scorer state: corpus scope, alignment tables and cluster data. -/
structure V2State where
  run_id : String
  core_documents : List String
  document_language : String → String
  annotated_region_types : String → List String
  gold_to_system : String → Option (List (String × AlignEntry))
  system_to_gold : String → Option (List (String × AlignEntry))
  gold_cluster_metatype : String → String → Option String
  gold_cluster_types : String → String → List (String × List String)
  system_doc_has_clusters : String → Bool
  system_cluster_metatype : String → String → Option String
  system_cluster_types : String → String → List (String × List String)

/-- `TypeMetricScorerV2.get_augmented_types`
(`type_metric_v2_scorer.py:61-71`), parameterized by `get_augmented_type`
(`gat`); a `none`/falsy augmented type drops the cluster type. -/
def get_augmented_types (gat : List String → String → Option String)
    (region_types : List String) (types : List (String × List String)) :
    List (String × List String) :=
  types.foldl
    (fun acc p =>
      match gat region_types p.1 with
      | none => acc
      | some aug =>
        if acc.any (fun q => q.1 == aug) then
          acc.map fun q => if q.1 == aug then (q.1, q.2 ++ p.2) else q
        else acc ++ [(aug, p.2)])
    []

/-- `','.join(sorted(xs))`. -/
def joinSorted (xs : List String) : String :=
  String.intercalate "," (sortByLt pyStrLt xs)

/-- The average precision computed for an aligned (gold, system) pair in
the gold-cluster loop (`type_metric_v2_scorer.py:104-112`). -/
def v2PairAP (gat : List String → String → Option String) (st : V2State)
    (document_id gold_cluster_id system_cluster_id : String) : ℚ × List SEvent :=
  let gold_types := st.gold_cluster_types document_id gold_cluster_id
  let system_types :=
    if st.system_doc_has_clusters document_id then
      st.system_cluster_types document_id system_cluster_id
    else []
  let augmented_gold_types :=
    get_augmented_types gat (st.annotated_region_types document_id) gold_types
  let augmented_system_types :=
    get_augmented_types gat (st.annotated_region_types document_id) system_types
  let r := get_average_precision document_id gold_cluster_id system_cluster_id
    augmented_gold_types augmented_system_types
  (r.1,
   [.TYPE_METRIC_SCORE_INFO "TypeMetricScorerV2" "TYPES_SUBMITTED" document_id gold_cluster_id
      (joinSorted (gold_types.map Prod.fst)) system_cluster_id
      (joinSorted (system_types.map Prod.fst)),
    .TYPE_METRIC_SCORE_INFO "TypeMetricScorerV2" "TYPES_SCORED" document_id gold_cluster_id
      (joinSorted (augmented_gold_types.map Prod.fst)) system_cluster_id
      (joinSorted (augmented_system_types.map Prod.fst))] ++ r.2)

/-- The score row (if any) produced by one iteration of the gold-cluster
loop (`type_metric_v2_scorer.py:90-121`). -/
def v2GoldRow (gat : List String → String → Option String) (st : V2State)
    (document_id : String) (p : String × AlignEntry) : Option ScoreRow :=
  let gold_cluster_id := p.1
  let system_cluster_id := p.2.aligned_to
  if gold_cluster_id == "None" then none
  else
    let metatype := st.gold_cluster_metatype document_id gold_cluster_id
    if metatype = some "Entity" ∨ metatype = some "Event" then
      let average_precision :=
        if system_cluster_id != "None" then
          (v2PairAP gat st document_id gold_cluster_id system_cluster_id).1
        else 0
      some ⟨st.run_id, document_id, st.document_language document_id,
            metatype.getD "", gold_cluster_id, system_cluster_id, average_precision⟩
    else none

/-- The events logged by one iteration of the gold-cluster loop. -/
def v2GoldEvents (gat : List String → String → Option String) (st : V2State)
    (document_id : String) (p : String × AlignEntry) : List SEvent :=
  let gold_cluster_id := p.1
  let system_cluster_id := p.2.aligned_to
  if gold_cluster_id == "None" then []
  else
    let metatype := st.gold_cluster_metatype document_id gold_cluster_id
    if metatype = some "Entity" ∨ metatype = some "Event" then
      if system_cluster_id != "None" then
        (if p.2.aligned_similarity = 0 then [.DEFAULT_CRITICAL_ERROR "aligned_similarity=0"]
         else []) ++
        (if st.system_cluster_metatype document_id system_cluster_id ≠ metatype then
          [.UNEXPECTED_ALIGNED_CLUSTER_METATYPE
            ((st.system_cluster_metatype document_id system_cluster_id).getD "")
            system_cluster_id (metatype.getD "") gold_cluster_id]
         else []) ++
        (v2PairAP gat st document_id gold_cluster_id system_cluster_id).2
      else []
    else []

/-- The score row (if any) produced by one iteration of the
unaligned-system-cluster loop (`type_metric_v2_scorer.py:123-141`). -/
def v2SystemRow (st : V2State) (document_id : String) (p : String × AlignEntry) :
    Option ScoreRow :=
  let system_cluster_id := p.1
  let gold_cluster_id := p.2.aligned_to
  if system_cluster_id == "None" then none
  else
    let metatype := st.system_cluster_metatype document_id system_cluster_id
    if metatype = some "Entity" ∨ metatype = some "Event" then
      if gold_cluster_id == "None" then
        some ⟨st.run_id, document_id, st.document_language document_id,
              metatype.getD "", gold_cluster_id, system_cluster_id, 0⟩
      else none
    else none

/-- The events logged by one iteration of the unaligned-system-cluster
loop. -/
def v2SystemEvents (st : V2State) (document_id : String) (p : String × AlignEntry) :
    List SEvent :=
  let system_cluster_id := p.1
  let gold_cluster_id := p.2.aligned_to
  if system_cluster_id == "None" then []
  else
    let metatype := st.system_cluster_metatype document_id system_cluster_id
    if metatype = some "Entity" ∨ metatype = some "Event" then
      if gold_cluster_id == "None" then []
      else if p.2.aligned_similarity = 0 then [.DEFAULT_CRITICAL_ERROR "aligned_similarity=0"]
      else []
    else []

/-- The per-unit score rows appended by
`TypeMetricScorerV2.score_responses`, in emission order (the printer then
receives them `multisort`-ed and `aggregate_scores` appends the group
summaries; both permute/extend but never drop or alter rows). -/
def scoreRowsV2 (gat : List String → String → Option String) (st : V2State) :
    List ScoreRow :=
  st.core_documents.flatMap fun document_id =>
    (match st.gold_to_system document_id with
     | none => []
     | some l => l.filterMap (v2GoldRow gat st document_id)) ++
    (match st.system_to_gold document_id with
     | none => []
     | some l => l.filterMap (v2SystemRow st document_id))

/-- The events logged by `TypeMetricScorerV2.score_responses`, in order. -/
def scoreEventsV2 (gat : List String → String → Option String) (st : V2State) :
    List SEvent :=
  st.core_documents.flatMap fun document_id =>
    [.ANNOTATED_TYPES_INFO document_id
      (String.intercalate "," (st.annotated_region_types document_id))] ++
    (match st.gold_to_system document_id with
     | none => []
     | some l => l.flatMap (v2GoldEvents gat st document_id)) ++
    (match st.system_to_gold document_id with
     | none => []
     | some l => l.flatMap (v2SystemEvents st document_id))

/-- Replace every `aligned_similarity` in an alignment table according to
`σ : document ↦ cluster ↦ entry ↦ new similarity`, keeping `aligned_to`. -/
def remapSims (σ : String → String → AlignEntry → ℚ)
    (table : String → Option (List (String × AlignEntry))) :
    String → Option (List (String × AlignEntry)) :=
  fun d => (table d).map (List.map fun p => (p.1, ⟨p.2.aligned_to, σ d p.1 p.2⟩))

/-! ## `TypeMetricScorerV4.score_responses` (`aida/type_metric_v4_scorer.py`) -/

/-- A per-unit row of the V4 type metric (`TypeMetricScoreV4`). -/
structure ScoreRowV4 where
  run_id : String
  document_id : String
  language : String
  metatype : String
  gold_cluster_id : String
  system_cluster_id : String
  type_similarity : ℚ
deriving DecidableEq

/-- State of the V4 scorer. -/
structure V4State where
  run_id : String
  core_documents : List String
  document_in_mappings : String → Bool
  document_language : String → String
  gold_to_system : String → Option (List (String × AlignEntry))
  system_to_gold : String → Option (List (String × AlignEntry))
  gold_cluster_metatype : String → String → Option String
  system_cluster_metatype : String → String → Option String
  type_similarities : String → String → String → Option ℚ

/-- `TypeMetricScorerV4.get_type_similarity`
(`type_metric_v4_scorer.py:33-40`): the precomputed pairwise similarity, 0
when absent. -/
def v4TypeSimilarity (st : V4State) (document_id system_cluster_id gold_cluster_id : String) :
    ℚ :=
  (st.type_similarities document_id system_cluster_id gold_cluster_id).getD 0

/-- `TypeMetricScorerV4.get_metatype` (`type_metric_v4_scorer.py:42-56`):
iterate `{'system': …, 'gold': …}` in insertion order, skipping `'None'`
ids and missing clusters, so the gold cluster's metatype wins when
both are found; logs a critical error for an unknown metatype value. -/
def v4Metatype (st : V4State) (document_id system_cluster_id gold_cluster_id : String) :
    Option String × List SEvent :=
  let mtSystem :=
    if system_cluster_id == "None" then none
    else st.system_cluster_metatype document_id system_cluster_id
  let mtGold :=
    if gold_cluster_id == "None" then none
    else st.gold_cluster_metatype document_id gold_cluster_id
  let metatype := mtGold.or mtSystem
  (metatype,
   if metatype = some "Event" ∨ metatype = some "Relation" ∨ metatype = some "Entity" ∨
       metatype = none then []
   else [.DEFAULT_CRITICAL_ERROR "Unknown metatype"])

/-- One iteration of the V4 gold-cluster loop
(`type_metric_v4_scorer.py:68-84`): the emitted row, if any. -/
def v4GoldRow (st : V4State) (document_id : String) (p : String × AlignEntry) :
    Option ScoreRowV4 :=
  let gold_cluster_id := p.1
  if gold_cluster_id == "None" then none
  else
    let system_cluster_id := p.2.aligned_to
    let type_similarity :=
      if system_cluster_id != "None" then
        v4TypeSimilarity st document_id system_cluster_id gold_cluster_id
      else 0
    let metatype := (v4Metatype st document_id system_cluster_id gold_cluster_id).1
    if metatype = some "Entity" ∨ metatype = some "Event" then
      some ⟨st.run_id, document_id, st.document_language document_id, metatype.getD "",
            gold_cluster_id, system_cluster_id, type_similarity⟩
    else none

/-- One iteration of the V4 unaligned-system-cluster loop
(`type_metric_v4_scorer.py:87-104`): the emitted row, if any. -/
def v4SystemRow (st : V4State) (document_id : String) (p : String × AlignEntry) :
    Option ScoreRowV4 :=
  let system_cluster_id := p.1
  let gold_cluster_id := p.2.aligned_to
  if system_cluster_id == "None" then none
  else
    let metatype := (v4Metatype st document_id system_cluster_id gold_cluster_id).1
    if metatype = some "Entity" ∨ metatype = some "Event" then
      if gold_cluster_id == "None" then
        some ⟨st.run_id, document_id, st.document_language document_id, metatype.getD "",
              gold_cluster_id, system_cluster_id, 0⟩
      else none
    else none

/-- The per-unit score rows appended by
`TypeMetricScorerV4.score_responses`, in emission order; documents with no
entry in the parent-children table are skipped. -/
def scoreRowsV4 (st : V4State) : List ScoreRowV4 :=
  st.core_documents.flatMap fun document_id =>
    if st.document_in_mappings document_id then
      (match st.gold_to_system document_id with
       | none => []
       | some l => l.filterMap (v4GoldRow st document_id)) ++
      (match st.system_to_gold document_id with
       | none => []
       | some l => l.filterMap (v4SystemRow st document_id))
    else []

/-! ## `validate_responses.py` process-level contract -/

/-- The positional path arguments of `validate_responses.py`. -/
structure VRArgs where
  log_specifications : String
  encodings : String
  core_documents : String
  parent_children : String
  sentence_boundaries : String
  image_boundaries : String
  keyframe_boundaries : String
  video_boundaries : String
  input : String
  output : String
deriving DecidableEq

/-- The paths handed to `check_for_paths_existance` by `check_path`
(`validate_responses.py:28-38`). -/
def requiredPaths (args : VRArgs) : List String :=
  [args.log_specifications, args.encodings, args.core_documents, args.parent_children,
   args.sentence_boundaries, args.image_boundaries, args.keyframe_boundaries,
   args.video_boundaries, args.input]

/-- Result of running the `validate_responses.py` main sequence. -/
structure RunOutcome where
  exit_code : ℕ
  ran_validation : Bool
deriving DecidableEq

/-- The `check_path` / `validate_responses` sequence of
`validate_responses.py` (`:28-50`, `:52-80`, `:100-101`): `exit(255)` at
the first missing required path or pre-existing output path, before any
validation; otherwise validation runs (its logger statistics are the
abstract inputs `num_warnings`/`num_errors`, the loaders being external
collaborators) and the process exits 255 iff `num_errors > 0`, else 0. -/
def validate_responses_main (pathExists : String → Bool)
    (num_warnings num_errors : ℕ) (args : VRArgs) : RunOutcome :=
  if ¬ (requiredPaths args).all pathExists then ⟨255, false⟩
  else if pathExists args.output then ⟨255, false⟩
  else if num_errors > 0 then ⟨255, true⟩
  else
    -- num_warnings is reported in the closing message but never gates the exit code
    have _ := num_warnings
    ⟨0, true⟩

/-! ## `AcrossDocumentsCoreferenceMetricScorer`
(`aida/across_documents_correference_metric_scorer.py`) -/

/-- One score row of the across-documents coreference metric
(`AcrossDocumentsCoreferenceMetricScore(logger, run_id, query_id,
entity_id, average_precision, summary)`). -/
structure ACDCScoreRow where
  run_id : String
  query_id : String
  entity_id : String
  average_precision : ℚ
  summary : Bool
deriving DecidableEq

/-- Python `int(s)` for a decimal string: strip whitespace, optional sign,
digits; `none` models `ValueError`. -/
def pyInt (s : String) : Option Int :=
  match pyStrip s.data with
  | '-' :: ds => if ds ≠ [] ∧ ds.all Char.isDigit then some (-(digitsToNat ds : Int)) else none
  | '+' :: ds => if ds ≠ [] ∧ ds.all Char.isDigit then some (digitsToNat ds) else none
  | ds => if ds ≠ [] ∧ ds.all Char.isDigit then some (digitsToNat ds) else none

/-- Python `s[-n:]`: the last `n` characters (the whole string when it is
shorter). -/
def pyLastChars (n : ℕ) (s : String) : String :=
  ⟨s.data.drop (s.data.length - n)⟩

/-- `key.split(':')` unpacked into exactly two names, as in
`entity_id_key, query_id_key = key.split(':')`; any other arity raises. -/
def pySplitColon2 (s : String) : Except PyErr (String × String) :=
  match pySplit ':' s with
  | [a, b] => .ok (a, b)
  | _ => .error .valueError

/-- `AcrossDocumentsCoreferenceMetricScorer.get_score`
(`across_documents_correference_metric_scorer.py:32-36`): the query
responses and assessments are fetched and discarded; the score is
`int(query_id[-4:]) * 0.0001` (the float literal modelled as `1/10000`). -/
def acdcGetScore {α β : Type} (query_responses : String → α)
    (query_assessments : String → β) (query_id : String) : Except PyErr ℚ :=
  let _responses := query_responses query_id
  let _assessments := query_assessments query_id
  match pyInt (pyLastChars 4 query_id) with
  | some n => .ok ((n : ℚ) * (1 / 10000))
  | none => .error .valueError

/-- `AcrossDocumentsCoreferenceMetricScorer.get_entity_id`
(`across_documents_correference_metric_scorer.py:38-40`):
`str(int(query_id[-1:]) + 200)`. -/
def acdcGetEntityId (query_id : String) : Except PyErr String :=
  match pyInt (pyLastChars 1 query_id) with
  | some n => .ok (toString (n + 200))
  | none => .error .valueError

/-- `mean_average_precisions[k] += ap; counts[k] += 1` over the paired
insertion-ordered dicts, represented as one association list
`key ↦ (sum, count)`. -/
def acdcBump (m : List (String × ℚ × ℕ)) (key : String) (ap : ℚ) : List (String × ℚ × ℕ) :=
  if m.any (fun kv => kv.1 == key) then
    m.map fun kv => if kv.1 == key then (kv.1, kv.2.1 + ap, kv.2.2 + 1) else kv
  else m ++ [(key, ap, 1)]

/-- One iteration of the per-query loop of `score_responses`
(`across_documents_correference_metric_scorer.py:46-59`): fetch the entity
id and the score, bump the four aggregation buckets, and append the
per-query row. -/
def acdcStep {α β : Type} (run_id : String) (query_responses : String → α)
    (query_assessments : String → β)
    (acc : List ACDCScoreRow × List (String × ℚ × ℕ)) (query_id : String) :
    Except PyErr (List ACDCScoreRow × List (String × ℚ × ℕ)) := do
  let entity_id ← acdcGetEntityId query_id
  let average_precision ← acdcGetScore query_responses query_assessments query_id
  let aggs := ["ALL-Micro", query_id].foldl
    (fun aggs query_id_key =>
      ["Summary", entity_id].foldl
        (fun aggs entity_id_key =>
          acdcBump aggs (entity_id_key ++ ":" ++ query_id_key) average_precision)
        aggs)
    acc.2
  pure (acc.1 ++ [⟨run_id, query_id, entity_id, average_precision, false⟩], aggs)

/-- The per-query loop of `score_responses`: accumulates the per-query
rows and the aggregation buckets. -/
def acdcFirstPass {α β : Type} (run_id : String) (queries_to_score : List String)
    (query_responses : String → α) (query_assessments : String → β) :
    Except PyErr (List ACDCScoreRow × List (String × ℚ × ℕ)) :=
  queries_to_score.foldlM (acdcStep run_id query_responses query_assessments) ([], [])

/-- One iteration of the summary loop of `score_responses`
(`across_documents_correference_metric_scorer.py:63-76`): split the bucket
key, skip keys whose query part is not `'ALL-Micro'` (remembering the
entity part in the leaked loop variable), otherwise append the mean row
and accumulate the macro average over non-`'Summary'` entity keys. -/
def acdcSummaryStep (run_id : String) (aggs : List (String × ℚ × ℕ))
    (acc : List ACDCScoreRow × ℚ × ℕ × Option String) (key : String) :
    Except PyErr (List ACDCScoreRow × ℚ × ℕ × Option String) := do
  let (entity_id_key, query_id_key) ← pySplitColon2 key
  if query_id_key != "ALL-Micro" then
    pure (acc.1, acc.2.1, acc.2.2.1, some entity_id_key)
  else
    let pair := ((aggs.find? (fun kv => kv.1 == key)).map Prod.snd).getD (0, 0)
    let mean_average_precision := if pair.2 ≠ 0 then pair.1 / (pair.2 : ℚ) else 0
    let macroAcc :=
      if entity_id_key != "Summary" then
        (acc.2.1 + mean_average_precision, acc.2.2.1 + 1)
      else (acc.2.1, acc.2.2.1)
    pure (acc.1 ++ [⟨run_id, query_id_key, entity_id_key, mean_average_precision, true⟩],
          macroAcc.1, macroAcc.2, some entity_id_key)

/-- `AcrossDocumentsCoreferenceMetricScorer.score_responses`
(`across_documents_correference_metric_scorer.py:42-92`): the per-query
rows, then the `ALL-Micro` summary rows (iterating the bucket keys in
sorted order), sorted by `(entity_id, query_id)`, and the final
`ALL-Macro` row built from the macro average and the leaked
`entity_id_key` loop variable (a `NameError` when no key was processed). -/
def acdcScoreResponses {α β : Type} (run_id : String) (queries_to_score : List String)
    (query_responses : String → α) (query_assessments : String → β) :
    Except PyErr (List ACDCScoreRow) := do
  let (rows, aggs) ← acdcFirstPass run_id queries_to_score query_responses query_assessments
  let (scores2, macro_sum, macro_count, leaked) ← (sortByLt pyStrLt (aggs.map Prod.fst)).foldlM
    (acdcSummaryStep run_id aggs) (rows, 0, 0, none)
  let macro_average_precision := if macro_count ≠ 0 then macro_sum / (macro_count : ℚ) else 0
  match leaked with
  | none => .error .nameError
  | some entity_id_key =>
    .ok (sortByLt
          (fun a b => pyStrLt a.entity_id b.entity_id ||
            (a.entity_id == b.entity_id && pyStrLt a.query_id b.query_id))
          scores2 ++
        [⟨run_id, "ALL-Macro", entity_id_key, macro_average_precision, true⟩])

/-- Whether an event is the scorer's `DEFAULT_CRITICAL_ERROR`. -/
def isCriticalEvent : SEvent → Bool
  | .DEFAULT_CRITICAL_ERROR _ => true
  | _ => false

/-- A degenerate `get_augmented_type` that recognizes no type. -/
def gatNone : List String → String → Option String := fun _ _ => none

/-- Test state: one core document with a single gold cluster of metatype
`Relation`, aligned (`aligned_to = "S1"`) with `aligned_similarity = 0`. -/
def v2StateRelation : V2State where
  run_id := "run1"
  core_documents := ["D1"]
  document_language := fun _ => "ENG"
  annotated_region_types := fun _ => []
  gold_to_system := fun d => if d == "D1" then some [("G1", ⟨"S1", 0⟩)] else none
  system_to_gold := fun _ => none
  gold_cluster_metatype := fun d g => if d == "D1" && g == "G1" then some "Relation" else none
  gold_cluster_types := fun _ _ => []
  system_doc_has_clusters := fun _ => false
  system_cluster_metatype := fun _ _ => none
  system_cluster_types := fun _ _ => []

/-- Test state: as `v2StateRelation` but the gold cluster is an `Entity`. -/
def v2StateEntity : V2State where
  run_id := "run1"
  core_documents := ["D1"]
  document_language := fun _ => "ENG"
  annotated_region_types := fun _ => []
  gold_to_system := fun d => if d == "D1" then some [("G1", ⟨"S1", 0⟩)] else none
  system_to_gold := fun _ => none
  gold_cluster_metatype := fun d g => if d == "D1" && g == "G1" then some "Entity" else none
  gold_cluster_types := fun _ _ => []
  system_doc_has_clusters := fun _ => false
  system_cluster_metatype := fun _ _ => none
  system_cluster_types := fun _ _ => []

/-- A raw score `s` is in the elements of the bucket labelled `(l, m)`. -/
def aggHasScore (s : RawScore) (l m : String) (aggs : List (String × AggScore)) : Prop :=
  ∃ kv ∈ aggs, kv.2.language = l ∧ kv.2.metatype = m ∧ s ∈ kv.2.elements

/-- Structural invariant of the `aggregates` dict built by
`Scorer.aggregate_scores`: keys are the comma-joined labels, keys are
unique, and every bucket label comes from a score of the collection or is
`'ALL'`. -/
def aggWf (scores : List RawScore) (aggs : List (String × AggScore)) : Prop :=
  (∀ kv ∈ aggs, kv.1 = kv.2.language ++ "," ++ kv.2.metatype) ∧
  (aggs.map Prod.fst).Nodup ∧
  (∀ kv ∈ aggs, (kv.2.language = "ALL" ∨ ∃ s ∈ scores, kv.2.language = s.language) ∧
                (kv.2.metatype = "ALL" ∨ ∃ s ∈ scores, kv.2.metatype = s.metatype))

/-!
# Theorems

Helper lemmas first, then one theorem per claim (with its witness or
counterexample where required).
-/

/-! ## Helper lemmas for the average-precision ranking loop (C1) -/

theorem numCorrectAt_cons_succ (gold : List String) (tw : TypeWeight) (ts : List TypeWeight)
    (r : ℕ) :
    numCorrectAt gold (tw :: ts) (r + 1) =
      (if gold.contains tw.entity_type then 1 else 0) + numCorrectAt gold ts r := by
  simp only [numCorrectAt, List.take_succ_cons, List.filter_cons]
  split <;> simp [Nat.add_comm]

theorem apLoop_sum_eq (gold : List String) (d g s : String) (n : ℕ) :
    ∀ (l : List TypeWeight) (st : APAcc),
      (l.foldl (apLoopStep gold d g s n) st).sum_precision =
        st.sum_precision +
          ((List.range l.length).map fun i =>
            if gold.contains (l.getD i default).entity_type then
              ((st.num_correct : ℚ) + (numCorrectAt gold l (i + 1) : ℚ)) /
                ((st.rank : ℚ) + (i : ℚ) + 1)
            else 0).sum
  | [], st => by simp
  | tw :: ts, st => by
    rw [List.foldl_cons, apLoop_sum_eq gold d g s n ts _]
    rw [List.length_cons, List.range_succ_eq_map, List.map_cons, List.map_map, List.sum_cons]
    by_cases h : gold.contains tw.entity_type
    · have hm : tw.entity_type ∈ gold := by simpa using h
      have hstep : apLoopStep gold d g s n st tw =
          { rank := st.rank + 1, num_correct := st.num_correct + 1,
            sum_precision := st.sum_precision +
              ((st.num_correct : ℚ) + 1) / ((st.rank : ℚ) + 1),
            events := st.events ++ [.TYPE_METRIC_AP_RANKED_LIST "TypeMetricScorerV2" d g s n
              (st.rank + 1) tw.entity_type "RIGHT" tw.weight (st.num_correct + 1)
              (st.sum_precision + ((st.num_correct : ℚ) + 1) / ((st.rank : ℚ) + 1))] } := by
        simp only [apLoopStep, h, if_true]
        push_cast
        rfl
      have hfun : ((fun i =>
            if gold.contains ((tw :: ts).getD i default).entity_type then
              ((st.num_correct : ℚ) + (numCorrectAt gold (tw :: ts) (i + 1) : ℚ)) /
                ((st.rank : ℚ) + (i : ℚ) + 1)
            else 0) ∘ Nat.succ) =
          fun i =>
            if gold.contains (ts.getD i default).entity_type then
              (((st.num_correct + 1 : ℕ) : ℚ) + (numCorrectAt gold ts (i + 1) : ℚ)) /
                (((st.rank + 1 : ℕ) : ℚ) + (i : ℚ) + 1)
            else 0 := by
        funext i
        simp only [Function.comp, List.getD_cons_succ]
        have hnc : numCorrectAt gold (tw :: ts) (Nat.succ i + 1) =
            1 + numCorrectAt gold ts (i + 1) := by
          have := numCorrectAt_cons_succ gold tw ts (i + 1)
          simpa [hm] using this
        rw [hnc]
        split
        · congr 1
          · push_cast; ring
          · push_cast; ring
        · rfl
      rw [hfun, hstep]
      have hzero : numCorrectAt gold (tw :: ts) (0 + 1) = 1 := by
        rw [numCorrectAt_cons_succ]; simp [numCorrectAt, hm]
      simp only [List.getD_cons_zero, hzero, h, if_true]
      push_cast
      ring
    · have hm : tw.entity_type ∉ gold := by simpa using h
      have hstep : apLoopStep gold d g s n st tw =
          { rank := st.rank + 1, num_correct := st.num_correct,
            sum_precision := st.sum_precision,
            events := st.events ++ [.TYPE_METRIC_AP_RANKED_LIST "TypeMetricScorerV2" d g s n
              (st.rank + 1) tw.entity_type "WRONG" tw.weight st.num_correct
              st.sum_precision] } := by
        simp only [apLoopStep, h, Bool.false_eq_true, if_false]
      have hfun : ((fun i =>
            if gold.contains ((tw :: ts).getD i default).entity_type then
              ((st.num_correct : ℚ) + (numCorrectAt gold (tw :: ts) (i + 1) : ℚ)) /
                ((st.rank : ℚ) + (i : ℚ) + 1)
            else 0) ∘ Nat.succ) =
          fun i =>
            if gold.contains (ts.getD i default).entity_type then
              ((st.num_correct : ℚ) + (numCorrectAt gold ts (i + 1) : ℚ)) /
                (((st.rank + 1 : ℕ) : ℚ) + (i : ℚ) + 1)
            else 0 := by
        funext i
        simp only [Function.comp, List.getD_cons_succ]
        have hnc : numCorrectAt gold (tw :: ts) (Nat.succ i + 1) =
            numCorrectAt gold ts (i + 1) := by
          have := numCorrectAt_cons_succ gold tw ts (i + 1)
          simpa [hm] using this
        rw [hnc]
        split
        · congr 1
          push_cast; ring
        · rfl
      rw [hfun, hstep]
      have hzero : numCorrectAt gold (tw :: ts) (0 + 1) = 0 := by
        rw [numCorrectAt_cons_succ]; simp [numCorrectAt, hm]
      simp only [List.getD_cons_zero, hzero, h, Bool.false_eq_true, if_false]
      push_cast
      ring

theorem ap_loop_matches_spec :
    ∀ (d g s : String) (augmented_gold_types augmented_system_types :
        List (String × List String)),
      (get_average_precision d g s augmented_gold_types augmented_system_types).1 =
        if augmented_gold_types.length = 0 then 0
        else
          apSumSpec (augmented_gold_types.map Prod.fst)
              (multisortTypeWeights (augmented_system_types.map fun p =>
                TypeWeight.mk p.1 (get_type_weight p.2))) /
            (augmented_gold_types.length : ℚ) := by
  intro d g s gold system
  unfold get_average_precision
  simp only [apLoop_sum_eq]
  by_cases hg : gold.length = 0
  · simp [hg]
  · simp only [hg, if_false, ne_eq, not_false_iff, if_true, if_neg, apSumSpec]
    simp [apSumSpec, Nat.cast_zero, zero_add]

/-- C1, counterexample: on the claim's example — gold type set `{A, B}`,
system types `A` (weight 2), `C` (weight 1), `B` (weight 1) — the ranking
sorted by `(weight desc, name asc)` is `[A, B, C]` (the name tie-break puts
`B` before `C`), so the average precision is `(1/1 + 2/2)/2 = 1`, not
`(1/1 + 2/3)/2 = 0.8333` as the claim computes. -/
theorem ap_example_refutes_claim :
    (get_average_precision "D1" "G1" "S1"
        [("A", ["g1"]), ("B", ["g2"])]
        [("A", ["m1", "m2"]), ("C", ["m3"]), ("B", ["m4"])]).1 = 1 ∧
    ((multisortTypeWeights ([("A", ["m1", "m2"]), ("C", ["m3"]), ("B", ["m4"])].map
        fun p => TypeWeight.mk p.1 (get_type_weight p.2))).map TypeWeight.entity_type =
      ["A", "B", "C"]) ∧
    (1 : ℚ) ≠ 5 / 6 ∧ ¬ |(1 : ℚ) - 8333 / 10000| ≤ 1 / 20000 := by
  refine ⟨by with_unfolding_all decide, by with_unfolding_all decide, by norm_num, by
    rw [abs_of_nonneg (by norm_num)]; norm_num⟩

/-- C1, amended: for every gold type set and weighted system type
dictionary, the returned average precision equals the sum, over the
1-based ranks of the `(weight desc, name asc)`-sorted system types whose
type is a gold type, of `num_correct-at-that-rank / rank`, divided by the
size of the gold type set, and 0 when the gold set is empty.  On gold
`{A, B}` with system weights `A = 2`, `C = 2`, `B = 1` the sorted ranking
is `[A, C, B]` and the average precision is `(1/1 + 2/3)/2 = 5/6 ≈ 0.8333`
(within half a unit of the printed `0.8333`). -/
theorem ap_ranking_spec :
    (∀ (d g s : String) (augmented_gold_types augmented_system_types :
        List (String × List String)),
      (get_average_precision d g s augmented_gold_types augmented_system_types).1 =
        if augmented_gold_types.length = 0 then 0
        else
          apSumSpec (augmented_gold_types.map Prod.fst)
              (multisortTypeWeights (augmented_system_types.map fun p =>
                TypeWeight.mk p.1 (get_type_weight p.2))) /
            (augmented_gold_types.length : ℚ)) ∧
    ((multisortTypeWeights ([("A", ["m1", "m2"]), ("C", ["m3", "m5"]), ("B", ["m4"])].map
        fun p => TypeWeight.mk p.1 (get_type_weight p.2))).map TypeWeight.entity_type =
      ["A", "C", "B"]) ∧
    (get_average_precision "D1" "G1" "S1"
        [("A", ["g1"]), ("B", ["g2"])]
        [("A", ["m1", "m2"]), ("C", ["m3", "m5"]), ("B", ["m4"])]).1 = 5 / 6 ∧
    |(5 / 6 : ℚ) - 8333 / 10000| ≤ 1 / 20000 := by
  refine ⟨ap_loop_matches_spec, by with_unfolding_all decide, by with_unfolding_all decide, by
    rw [abs_of_nonneg (by norm_num)]; norm_num⟩

/-! ## C3: confidence repair -/

theorem trim_cv_quoted_one : trim_cv "\"1.0\"" = some 1 := by
  with_unfolding_all decide

/-- C3: `validate_confidence` always returns `true` (a record is never
rejected for its confidence); away from the schema-specific `NULL` bypass,
an in-range value is stored unchanged with no event, while a value that
fails to parse or lies outside `(0, 1]` is replaced by a stored value that
reads back as `1.0`, with exactly one `INVALID_CONFIDENCE` event logged;
in particular `"abc"`, `"0"`, `"1.5"`, `"-0.2"` are repaired to `1.0` and
`"0.73"` is accepted unchanged. -/
theorem validate_confidence_repairs :
    (∀ t n a v loc, (validate_confidence t n a v loc).valid = true) ∧
    (∀ t n a v loc, confNullBypass t n a v = false → confOk v = true →
      validate_confidence t n a v loc = ⟨true, v, []⟩) ∧
    (∀ t n a v loc, confNullBypass t n a v = false → confOk v = false →
      (validate_confidence t n a v loc).stored = "\"1.0\"" ∧
      trim_cv (validate_confidence t n a v loc).stored = some 1 ∧
      (validate_confidence t n a v loc).events.length = 1 ∧
      ∀ e ∈ (validate_confidence t n a v loc).events, ∃ w l, e = .INVALID_CONFIDENCE w l) ∧
    (∀ v ∈ (["abc", "0", "1.5", "-0.2"] : List String),
      (validate_confidence "task1" "TEST_SCHEMA" "confidence" v "line 1").stored =
        "\"1.0\"" ∧
      trim_cv ((validate_confidence "task1" "TEST_SCHEMA" "confidence" v "line 1").stored) =
        some 1) ∧
    validate_confidence "task1" "TEST_SCHEMA" "confidence" "0.73" "line 1" =
      ⟨true, "0.73", []⟩ := by
  refine ⟨?_, ?_, ?_, ?_, by with_unfolding_all decide⟩
  · intro t n a v loc
    by_cases hb : confNullBypass t n a v
    · simp [validate_confidence, hb]
    · simp only [validate_confidence, hb, Bool.false_eq_true, if_false]
      cases htc : trim_cv v with
      | none => rfl
      | some q =>
        dsimp only
        split <;> rfl
  · intro t n a v loc hb hok
    simp only [validate_confidence, hb, Bool.false_eq_true, if_false]
    cases htc : trim_cv v with
    | none => rw [confOk, htc] at hok; exact absurd hok (by simp)
    | some q =>
      rw [confOk, htc] at hok
      have hq : 0 < q ∧ q ≤ 1 := of_decide_eq_true hok
      dsimp only
      rw [if_neg (by simpa using hq)]
  · intro t n a v loc hb hok
    simp only [validate_confidence, hb, Bool.false_eq_true, if_false]
    cases htc : trim_cv v with
    | none =>
      refine ⟨rfl, trim_cv_quoted_one, rfl, ?_⟩
      intro e he
      simp only [List.mem_singleton] at he
      exact ⟨_, _, he⟩
    | some q =>
      rw [confOk, htc] at hok
      have hq : ¬ (0 < q ∧ q ≤ 1) := by simpa using hok
      dsimp only
      rw [if_pos hq]
      refine ⟨rfl, trim_cv_quoted_one, rfl, ?_⟩
      intro e he
      simp only [List.mem_singleton] at he
      exact ⟨_, _, he⟩
  · intro v hv
    simp only [List.mem_cons, List.mem_singleton] at hv
    rcases hv with rfl | rfl | rfl | rfl | h
    · exact ⟨by with_unfolding_all decide, by with_unfolding_all decide⟩
    · exact ⟨by with_unfolding_all decide, by with_unfolding_all decide⟩
    · exact ⟨by with_unfolding_all decide, by with_unfolding_all decide⟩
    · exact ⟨by with_unfolding_all decide, by with_unfolding_all decide⟩
    · simp at h

/-- C3, witness. -/
theorem validate_confidence_repairs_witness :
    confNullBypass "task1" "TEST_SCHEMA" "confidence" "abc" = false ∧
    confOk "abc" = false ∧
    (validate_confidence "task1" "TEST_SCHEMA" "confidence" "abc" "line 1").stored =
      "\"1.0\"" :=
  ⟨by with_unfolding_all decide, by with_unfolding_all decide,
   (validate_confidence_repairs.2.2.1 "task1" "TEST_SCHEMA" "confidence" "abc" "line 1"
     (by with_unfolding_all decide) (by with_unfolding_all decide)).1⟩

/-! ## C4: `validate_date` can raise -/

/-- C4: the propagation-policy claim fails on the code: on a date object
whose `year` is missing (`None`) while `month` is present, `validate_date`
reaches the bare comparison `year < 0` and raises `TypeError` instead of
returning a boolean. -/
theorem validate_date_raises_on_partial_date :
    validate_date "cluster-1" "date" "line 1" (some ⟨none, some 5, none⟩) =
      .error .typeError ∧
    ∀ r : Bool × List VEvent,
      validate_date "cluster-1" "date" "line 1" (some ⟨none, some 5, none⟩) ≠ .ok r := by
  have h : validate_date "cluster-1" "date" "line 1" (some ⟨none, some 5, none⟩) =
      .error .typeError := by with_unfolding_all decide
  exact ⟨h, fun r hr => Except.noConfusion (h ▸ hr)⟩

/-! ## C5: date ranges -/

/-- C5, counterexample: on `start_after = {year 2020, month 6}`,
`end_before = {year 2020, month 5}` the range is rejected, but the logged
`INVALID_DATE_RANGE` event carries only the tag, the item id, the two
date-field names and the location — the mismatched field `"month"`
(computed into the dead local `problem_field`) is not reported. -/
theorem date_range_field_not_reported :
    validate_date_start_and_end "TEST_SCHEMA" "claim-1" "cluster-1" "line 1"
        (some ⟨some 2020, some 6, none⟩) (some ⟨some 2020, some 5, none⟩) =
      .ok (false,
        [.INVALID_DATE_RANGE "Cluster" "cluster-1" "start_after" "end_before" "line 1"]) ∧
    (eventStrings
        (.INVALID_DATE_RANGE "Cluster" "cluster-1" "start_after" "end_before"
          "line 1")).contains "month" = false := by
  exact ⟨by with_unfolding_all decide, by with_unfolding_all decide⟩

/-- C5, amended: with both years present, the comparison checks year, then
month (only when both present and nonzero), then day, and returns `false`
exactly when the before-date precedes the after-date at the first compared
field that differs; the single `INVALID_DATE_RANGE` event logged on
failure identifies the claim/cluster and the two date-field names, not the
mismatched component; the `{2020,6}` / `{2020,5}` example is invalid with
the event naming `start_after` and `end_before`. -/
theorem before_and_after_dates_spec :
    (∀ (sn cu sc loc nb na : String) (yb ya : Int) (bm bd am ad : Option Int),
      validate_before_and_after_dates sn cu sc loc nb ⟨some yb, bm, bd⟩ na
          ⟨some ya, am, ad⟩ =
        .ok (!(datePrecedes ⟨some yb, bm, bd⟩ ⟨some ya, am, ad⟩),
          if datePrecedes ⟨some yb, bm, bd⟩ ⟨some ya, am, ad⟩ then
            [if sn == "AIDA_PHASE3_TASK3_CT_RESPONSE" ∨
                sn == "AIDA_PHASE3_TASK3_TM_RESPONSE" then
              VEvent.INVALID_DATE_RANGE "Claim" cu na nb loc
             else VEvent.INVALID_DATE_RANGE "Cluster" sc na nb loc]
          else [])) ∧
    (∀ (sn cu sc loc attr : String) (a b : PyDate),
      validate_date_range sn cu sc loc attr (some a) (some b) =
        validate_before_and_after_dates sn cu sc loc (attr ++ "_before") b
          (attr ++ "_after") a) ∧
    validate_date_start_and_end "TEST_SCHEMA" "claim-1" "cluster-1" "line 1"
        (some ⟨some 2020, some 6, none⟩) (some ⟨some 2020, some 5, none⟩) =
      .ok (false,
        [.INVALID_DATE_RANGE "Cluster" "cluster-1" "start_after" "end_before"
          "line 1"]) := by
  refine ⟨?_, fun sn cu sc loc attr a b => rfl, by with_unfolding_all decide⟩
  intro sn cu sc loc nb na yb ya bm bd am ad
  simp only [validate_before_and_after_dates, datePrecedes, pyLtOpt]
  have hy : pyEqOpt (some yb) (some ya) = (yb == ya) := rfl
  rw [hy]
  simp only [bind, Except.bind]
  by_cases h1 : yb < ya
  · simp [h1]
  · by_cases h2 : yb = ya
    · by_cases h3 : pyTruthy bm = true <;> by_cases h4 : pyTruthy am = true <;>
        by_cases h5 : pyEqOpt bm am = true <;> by_cases h6 : pyTruthy bd = true <;>
        by_cases h7 : pyTruthy ad = true <;>
        by_cases h8 : bm.getD 0 < am.getD 0 <;> by_cases h9 : bd.getD 0 < ad.getD 0 <;>
        simp [h1, h2, h3, h4, h5, h6, h7, h8, h9]
    · simp [h1, h2]

/-! ## C6: compound justification triples -/

theorem vppLoop_fst {σ : Type} (vp : String → Bool → σ → Bool × σ × List VEvent)
    (vpb : String → Bool → Bool) (hpure : ∀ p f s, (vp p f s).1 = vpb p f) (flag : Bool) :
    ∀ (l : List String) (st : σ) (evs : List VEvent),
      (vppLoop vp flag l st evs).1 = l.all fun p => vpb p flag
  | [], st, evs => by simp [vppLoop]
  | p :: ps, st, evs => by
    simp only [vppLoop, List.all_cons]
    by_cases h : (vp p flag st).1 = true
    · rw [if_pos h, vppLoop_fst vp vpb hpure flag ps _ _, ← hpure p flag st, h,
        Bool.true_and]
    · rw [if_neg h]
      have : vpb p flag = false := by
        rw [← hpure p flag st]; exact Bool.not_eq_true _ ▸ (by simpa using h)
      simp [this]

theorem vppLoop_calls (f : String → Bool → Bool) (flag : Bool) :
    ∀ (l : List String) (st : List (String × Bool)) (evs : List VEvent),
      ∀ c ∈ (vppLoop
          (fun p fl s => (f p fl, s ++ [(p, fl)], ([] : List VEvent))) flag l st evs).2.1,
        c ∈ st ∨ (c.1 ∈ l ∧ c.2 = flag)
  | [], st, evs => by simp [vppLoop]
  | p :: ps, st, evs => by
    intro c hc
    simp only [vppLoop] at hc
    by_cases h : f p flag = true
    · rw [if_pos h] at hc
      rcases vppLoop_calls f flag ps (st ++ [(p, flag)]) _ c hc with hin | htail
      · rcases List.mem_append.mp hin with h1 | h2
        · exact Or.inl h1
        · simp only [List.mem_singleton] at h2
          subst h2
          exact Or.inr ⟨List.mem_cons_self _ _, rfl⟩
      · exact Or.inr ⟨List.mem_cons_of_mem _ htail.1, htail.2⟩
    · rw [if_neg h] at hc
      simp only at hc
      rcases List.mem_append.mp hc with h1 | h2
      · exact Or.inl h1
      · simp only [List.mem_singleton] at h2
        subst h2
        exact Or.inr ⟨List.mem_cons_self _ _, rfl⟩

/-- C6: `validate_value_provenance_triples` splits on `';'`; more than two
segments fails hard with an `IMPROPER_COMPOUND_JUSTIFICATION` event; with
at most two segments every segment is validated with
`apply_correction = (number of segments == 1)` and the verdict is the
conjunction of the segment verdicts (for any state-independent provenance
validator); the recorded calls show each segment validated with exactly
that flag. -/
theorem value_provenance_triples_spec :
    (∀ (σ : Type) (vp : String → Bool → σ → Bool × σ × List VEvent)
        (value loc : String) (st : σ),
      2 < (pySplit ';' value).length →
      validate_value_provenance_triples vp value loc st =
        (false, st, [.IMPROPER_COMPOUND_JUSTIFICATION value loc])) ∧
    (∀ (σ : Type) (vp : String → Bool → σ → Bool × σ × List VEvent)
        (vpb : String → Bool → Bool), (∀ p f s, (vp p f s).1 = vpb p f) →
      ∀ (value loc : String) (st : σ), (pySplit ';' value).length ≤ 2 →
      (validate_value_provenance_triples vp value loc st).1 =
        (pySplit ';' value).all fun p => vpb p ((pySplit ';' value).length == 1)) ∧
    (∀ (f : String → Bool → Bool) (value loc : String),
      (pySplit ';' value).length ≤ 2 →
      ∀ c ∈ (validate_value_provenance_triples
          (fun p fl s => (f p fl, s ++ [(p, fl)], ([] : List VEvent))) value loc
          ([] : List (String × Bool))).2.1,
        c.1 ∈ pySplit ';' value ∧ c.2 = ((pySplit ';' value).length == 1)) := by
  refine ⟨?_, ?_, ?_⟩
  · intro σ vp value loc st h
    simp only [validate_value_provenance_triples]
    rw [if_pos (by simpa using h)]
  · intro σ vp vpb hpure value loc st h
    simp only [validate_value_provenance_triples]
    rw [if_neg (by simpa using h)]
    exact vppLoop_fst vp vpb hpure _ _ _ _
  · intro f value loc h c hc
    simp only [validate_value_provenance_triples] at hc
    rw [if_neg (by simpa using h)] at hc
    rcases vppLoop_calls f _ _ _ _ c hc with h1 | h2
    · simp at h1
    · exact h2

/-- C6, witness. -/
theorem value_provenance_triples_spec_witness :
    validate_value_provenance_triples
        (fun _ _ (s : Unit) => (true, s, ([] : List VEvent))) "a;b;c" "line 1" () =
      (false, (), [.IMPROPER_COMPOUND_JUSTIFICATION "a;b;c" "line 1"]) ∧
    (validate_value_provenance_triples
        (fun p _ (s : Unit) => (p == "a", s, ([] : List VEvent))) "a;b" "line 1" ()).1 =
      (pySplit ';' "a;b").all (fun p => p == "a") ∧
    ∀ c ∈ (validate_value_provenance_triples
        (fun p fl (s : List (String × Bool)) =>
          ((fun _ _ => true) p fl, s ++ [(p, fl)], ([] : List VEvent))) "a;b" "line 1"
        ([] : List (String × Bool))).2.1,
      c.1 ∈ pySplit ';' "a;b" ∧ c.2 = ((pySplit ';' "a;b").length == 1) := by
  refine ⟨value_provenance_triples_spec.1 Unit _ "a;b;c" "line 1" ()
      (by with_unfolding_all decide), ?_,
    value_provenance_triples_spec.2.2 (fun _ _ => true) "a;b" "line 1"
      (by with_unfolding_all decide)⟩
  have h := value_provenance_triples_spec.2.1 Unit
    (fun p _ (s : Unit) => (p == "a", s, ([] : List VEvent))) (fun p _ => p == "a")
    (fun p f s => rfl) "a;b" "line 1" () (by with_unfolding_all decide)
  simpa using h

/-! ## C9: process exit contract -/

/-- C9: the `validate_responses` process exits 0 iff all required input
paths exist, the output path does not, and no error-severity event was
logged; a missing required path or pre-existing output exits 255 before
validation runs; after validation the exit code is 255 iff the error count
is positive; the warning count never influences the outcome. -/
theorem validate_responses_exit_spec :
    ∀ (pathExists : String → Bool) (num_warnings num_errors : ℕ) (args : VRArgs),
      ((validate_responses_main pathExists num_warnings num_errors args).exit_code = 0 ↔
        ((requiredPaths args).all pathExists = true ∧ pathExists args.output = false ∧
          num_errors = 0)) ∧
      (((requiredPaths args).all pathExists = false ∨ pathExists args.output = true) →
        validate_responses_main pathExists num_warnings num_errors args = ⟨255, false⟩) ∧
      ((requiredPaths args).all pathExists = true → pathExists args.output = false →
        validate_responses_main pathExists num_warnings num_errors args =
          ⟨if num_errors > 0 then 255 else 0, true⟩) ∧
      (∀ w' : ℕ, validate_responses_main pathExists num_warnings num_errors args =
        validate_responses_main pathExists w' num_errors args) := by
  intro pathExists w e args
  refine ⟨?_, ?_, ?_, fun w' => rfl⟩
  · unfold validate_responses_main
    by_cases h1 : (requiredPaths args).all pathExists = true <;>
      by_cases h2 : pathExists args.output = true <;>
      by_cases h3 : e > 0 <;>
      simp [h1, h2, h3] <;> omega
  · intro h
    unfold validate_responses_main
    rcases h with h | h
    · rw [if_pos (by simp [h])]
    · by_cases h1 : (requiredPaths args).all pathExists = true
      · rw [if_neg (by simp [h1]), if_pos h]
      · rw [if_pos (by simp [h1])]
  · intro h1 h2
    unfold validate_responses_main
    rw [if_neg (by simp [h1]), if_neg (by simp [h2])]
    by_cases h3 : e > 0
    · simp [h3]
    · simp [h3]

/-- C9, witness. -/
theorem validate_responses_exit_spec_witness :
    validate_responses_main (fun s => s != "out") 3 0
        ⟨"p1", "p2", "p3", "p4", "p5", "p6", "p7", "p8", "p9", "out"⟩ = ⟨0, true⟩ := by
  have h := (validate_responses_exit_spec (fun s => s != "out") 3 0
      ⟨"p1", "p2", "p3", "p4", "p5", "p6", "p7", "p8", "p9", "out"⟩).2.2.1
    (by with_unfolding_all decide) (by with_unfolding_all decide)
  simpa using h

theorem pyCharsLt_irrefl : ∀ l : List Char, pyCharsLt l l = false
  | [] => rfl
  | c :: cs => by simp [pyCharsLt, pyCharsLt_irrefl cs]

theorem pyCharsLt_asymm : ∀ {a b : List Char}, pyCharsLt a b = true → pyCharsLt b a = false
  | [], [], h => by simp [pyCharsLt] at h
  | [], _ :: _, _ => rfl
  | _ :: _, [], h => by simp [pyCharsLt] at h
  | a :: as, b :: bs, h => by
    simp only [pyCharsLt] at h ⊢
    rcases Nat.lt_trichotomy a.toNat b.toNat with hab | hab | hab
    · simp [hab]
      omega
    · rw [hab] at h ⊢
      simp only [lt_irrefl, if_false] at h ⊢
      exact pyCharsLt_asymm h
    · simp [hab] at h
      omega
  termination_by a _ => a.length

theorem pyCharsLt_trans : ∀ {a b c : List Char},
    pyCharsLt a b = true → pyCharsLt b c = true → pyCharsLt a c = true
  | [], _, _ :: _, _, _ => rfl
  | [], [], [], h1, _ => by simp [pyCharsLt] at h1
  | [], _ :: _, [], _, h2 => by simp [pyCharsLt] at h2
  | _ :: _, [], _, h1, _ => by simp [pyCharsLt] at h1
  | _ :: _, _ :: _, [], _, h2 => by simp [pyCharsLt] at h2
  | a :: as, b :: bs, c :: cs, h1, h2 => by
    simp only [pyCharsLt] at h1 h2 ⊢
    rcases Nat.lt_trichotomy a.toNat b.toNat with hab | hab | hab
    · rcases Nat.lt_trichotomy b.toNat c.toNat with hbc | hbc | hbc
      · simp [lt_trans hab hbc]
      · simp [hbc ▸ hab]
      · rw [if_neg (by omega), if_pos hbc] at h2
        simp at h2
    · rcases Nat.lt_trichotomy b.toNat c.toNat with hbc | hbc | hbc
      · simp [hab ▸ hbc]
      · rw [hab] at h1
        rw [hbc] at h2
        simp only [lt_irrefl, if_false] at h1 h2
        have hac : a.toNat = c.toNat := by rw [hab, hbc]
        rw [hac]
        simp only [lt_irrefl, if_false]
        exact pyCharsLt_trans h1 h2
      · rw [if_neg (by omega), if_pos hbc] at h2
        simp at h2
    · rw [if_neg (by omega), if_pos hab] at h1
      simp at h1
  termination_by a _ _ => a.length



theorem mem_insertByLt {α : Type} (lt : α → α → Bool) (x : α) :
    ∀ (l : List α) (y : α), y ∈ insertByLt lt x l ↔ y = x ∨ y ∈ l
  | [], y => by simp [insertByLt]
  | z :: zs, y => by
    simp only [insertByLt]
    split
    · simp [or_comm, or_assoc, or_left_comm]
    · simp only [List.mem_cons, mem_insertByLt lt x zs y]
      tauto

theorem mem_sortByLt_aux {α : Type} (lt : α → α → Bool) :
    ∀ (l : List α) (acc : List α) (y : α),
      y ∈ l.foldl (fun acc x => insertByLt lt x acc) acc ↔ y ∈ acc ∨ y ∈ l
  | [], acc, y => by simp
  | z :: zs, acc, y => by
    simp only [List.foldl_cons, mem_sortByLt_aux lt zs _ y, mem_insertByLt, List.mem_cons]
    tauto

theorem mem_sortByLt {α : Type} (lt : α → α → Bool) (l : List α) (y : α) :
    y ∈ sortByLt lt l ↔ y ∈ l := by
  simp [sortByLt, mem_sortByLt_aux]

theorem pairwise_insertByLt {α : Type} (lt : α → α → Bool)
    (hasym : ∀ a b, lt a b = true → lt b a = false)
    (htrans : ∀ a b c, lt a b = true → lt b c = true → lt a c = true) (x : α) :
    ∀ l, List.Pairwise (fun a b => lt b a = false) l →
      List.Pairwise (fun a b => lt b a = false) (insertByLt lt x l)
  | [], _ => by simp [insertByLt]
  | y :: ys, h => by
    rcases List.pairwise_cons.mp h with ⟨hy, hys⟩
    simp only [insertByLt]
    split
    · rename_i hxy
      refine List.pairwise_cons.mpr ⟨?_, h⟩
      intro z hz
      rcases List.mem_cons.mp hz with rfl | hz
      · exact hasym _ _ hxy
      · by_cases hzx : lt z x = true
        · have := htrans _ _ _ hzx hxy
          rw [hy z hz] at this
          exact absurd this (by simp)
        · simpa using hzx
    · rename_i hxy
      refine List.pairwise_cons.mpr ⟨?_, pairwise_insertByLt lt hasym htrans x ys hys⟩
      intro z hz
      rcases (mem_insertByLt lt x ys z).mp hz with rfl | hz
      · simpa using hxy
      · exact hy z hz

theorem pairwise_sortByLt_aux {α : Type} (lt : α → α → Bool)
    (hasym : ∀ a b, lt a b = true → lt b a = false)
    (htrans : ∀ a b c, lt a b = true → lt b c = true → lt a c = true) :
    ∀ (l acc : List α), List.Pairwise (fun a b => lt b a = false) acc →
      List.Pairwise (fun a b => lt b a = false)
        (l.foldl (fun acc x => insertByLt lt x acc) acc)
  | [], acc, h => h
  | z :: zs, acc, h => by
    rw [List.foldl_cons]
    exact pairwise_sortByLt_aux lt hasym htrans zs _ (pairwise_insertByLt lt hasym htrans z acc h)

theorem pairwise_sortByLt {α : Type} (lt : α → α → Bool)
    (hasym : ∀ a b, lt a b = true → lt b a = false)
    (htrans : ∀ a b c, lt a b = true → lt b c = true → lt a c = true) (l : List α) :
    List.Pairwise (fun a b => lt b a = false) (sortByLt lt l) :=
  pairwise_sortByLt_aux lt hasym htrans l [] (by simp)

theorem getLast_of_top {α : Type} (lt : α → α → Bool) :
    ∀ (l : List α) (x : α), List.Pairwise (fun a b => lt b a = false) l → x ∈ l →
      (∀ y ∈ l, y = x ∨ lt y x = true) → l.getLast? = some x
  | [], x, _, hx, _ => absurd hx (by simp)
  | [a], x, _, hx, _ => by
    simp only [List.mem_singleton] at hx
    simp [hx]
  | a :: b :: rest, x, hp, hx, htop => by
    rw [List.getLast?_cons_cons]
    rcases List.pairwise_cons.mp hp with ⟨ha, hp'⟩
    have hxin : x ∈ b :: rest := by
      rcases List.mem_cons.mp hx with rfl | hx'
      · rcases htop b (by simp) with rfl | hb
        · exact List.mem_cons_self _ _
        · have := ha b (by simp)
          rw [hb] at this
          exact absurd this (by simp)
      · exact hx'
    exact getLast_of_top lt (b :: rest) x hp' hxin (fun y hy => htop y (List.mem_cons_of_mem _ hy))



theorem pyStrLt_asymm (a b : String) (h : pyStrLt a b = true) : pyStrLt b a = false :=
  pyCharsLt_asymm h

theorem pyStrLt_trans (a b c : String) (h1 : pyStrLt a b = true) (h2 : pyStrLt b c = true) :
    pyStrLt a c = true :=
  pyCharsLt_trans h1 h2

theorem pyCharsLt_append_left :
    ∀ (p a b : List Char), pyCharsLt (p ++ a) (p ++ b) = pyCharsLt a b
  | [], a, b => rfl
  | c :: cs, a, b => by
    simp only [List.cons_append, pyCharsLt, lt_irrefl, if_false]
    exact pyCharsLt_append_left cs a b

theorem pyCharsLt_cons_underscore (c : Char) (cs ds : List Char) (h : c.toNat < 95) :
    pyCharsLt (c :: cs) ('_' :: ds) = true := by
  simp only [pyCharsLt]
  rw [if_pos (by exact h)]

/-- The order key of the `(ALL, ALL)` bucket. -/
theorem orderKey_allall (a : AggScore) (h1 : a.language = "ALL") (h2 : a.metatype = "ALL") :
    orderKey a = "_ALL:_ALL" := by
  simp [orderKey, h1, h2]

theorem orderKey_lt_allall (a : AggScore)
    (hlang : a.language = "ALL" ∨ concreteGroupValue a.language)
    (hmeta : a.metatype = "ALL" ∨ concreteGroupValue a.metatype)
    (hne : ¬ (a.language = "ALL" ∧ a.metatype = "ALL")) :
    pyStrLt (orderKey a) "_ALL:_ALL" = true := by
  have htopdata : ("_ALL:_ALL" : String).data = ['_', 'A', 'L', 'L', ':'] ++ "_ALL".data := rfl
  rcases hlang with hl | hl
  · rcases hmeta with hm | hm
    · exact absurd ⟨hl, hm⟩ hne
    · have hb : (a.metatype == "ALL") = false := by
        simp [hm.1]
      have h1 : orderKey a = "_ALL" ++ ":" ++ a.metatype := by
        simp [orderKey, hl, hb]
      show pyCharsLt (orderKey a).data ("_ALL:_ALL" : String).data = true
      rw [h1, htopdata]
      simp only [String.data_append]
      have hp : (("_ALL" : String).data ++ (":" : String).data : List Char) =
          ['_', 'A', 'L', 'L', ':'] := rfl
      rw [hp, pyCharsLt_append_left]
      cases hd : a.metatype.data with
      | nil => rfl
      | cons c cs =>
        have hc : c.toNat < 95 := hm.2.2 c (by rw [hd]; simp)
        show pyCharsLt (c :: cs) ('_' :: "ALL".data) = true
        exact pyCharsLt_cons_underscore c cs _ hc
  · have hb : (a.language == "ALL") = false := by
      simp [hl.1]
    have h1 : orderKey a = a.language ++ ":" ++
        (if a.metatype == "ALL" then "_ALL" else a.metatype) := by
      simp [orderKey, hb]
    show pyCharsLt (orderKey a).data ("_ALL:_ALL" : String).data = true
    rw [h1]
    simp only [String.data_append]
    cases hd : a.language.data with
    | nil =>
      simp only [List.nil_append, List.cons_append]
      exact pyCharsLt_cons_underscore ':' _ _ (by decide)
    | cons c cs =>
      have hc : c.toNat < 95 := hl.2.2 c (by rw [hd]; simp)
      simp only [List.cons_append]
      exact pyCharsLt_cons_underscore c _ _ hc



theorem append_comma_inj :
    ∀ (a c b d : List Char), ',' ∉ a → ',' ∉ c →
      a ++ ',' :: b = c ++ ',' :: d → a = c ∧ b = d
  | [], [], b, d, _, _, h => by simpa using h
  | [], e :: es, b, d, _, hc, h => by
    simp only [List.nil_append, List.cons_append, List.cons.injEq] at h
    have : (',' : Char) ∈ e :: es := by rw [h.1]; exact List.mem_cons_self e es
    exact absurd this hc
  | e :: es, [], b, d, ha, _, h => by
    simp only [List.nil_append, List.cons_append, List.cons.injEq] at h
    have : (',' : Char) ∈ e :: es := by rw [← h.1]; exact List.mem_cons_self e es
    exact absurd this ha
  | e :: es, f :: fs, b, d, ha, hc, h => by
    simp only [List.cons_append, List.cons.injEq] at h
    have := append_comma_inj es fs b d (fun hmem => ha (List.mem_cons_of_mem _ hmem))
      (fun hmem => hc (List.mem_cons_of_mem _ hmem)) h.2
    exact ⟨by rw [h.1, this.1], this.2⟩

theorem string_key_inj (l m l' m' : String)
    (hl : ',' ∉ l.data) (hl' : ',' ∉ l'.data)
    (h : l ++ "," ++ m = l' ++ "," ++ m') : l = l' ∧ m = m' := by
  have hd : l.data ++ ',' :: m.data = l'.data ++ ',' :: m'.data := by
    have := congrArg String.data h
    simpa [String.data_append] using this
  have hres := append_comma_inj l.data l'.data m.data m'.data hl hl' hd
  have hstring : ∀ (x y : String), x.data = y.data → x = y := fun x y hxy => by
    cases x; cases y; exact congrArg String.mk hxy
  exact ⟨hstring _ _ hres.1, hstring _ _ hres.2⟩

theorem nodup_keys_unique {α β : Type} :
    ∀ (l : List (α × β)), (l.map Prod.fst).Nodup →
      ∀ kv1 ∈ l, ∀ kv2 ∈ l, kv1.1 = kv2.1 → kv1 = kv2
  | [], _, kv1, h1, _, _, _ => absurd h1 (by simp)
  | x :: xs, hnd, kv1, h1, kv2, h2, hk => by
    simp only [List.map_cons, List.nodup_cons] at hnd
    rcases List.mem_cons.mp h1 with he1 | h1' <;> rcases List.mem_cons.mp h2 with he2 | h2'
    · rw [he1, he2]
    · subst he1
      have : kv1.1 ∈ xs.map Prod.fst := hk ▸ List.mem_map_of_mem Prod.fst h2'
      exact absurd this hnd.1
    · subst he2
      have : kv2.1 ∈ xs.map Prod.fst := by
        rw [← hk]; exact List.mem_map_of_mem Prod.fst h1'
      exact absurd this hnd.1
    · exact nodup_keys_unique xs hnd.2 kv1 h1' kv2 h2' hk



theorem addScoreToAgg_preserves (s : RawScore) (l m : String)
    (aggs : List (String × AggScore)) (k l' m' r : String) (sc : RawScore)
    (h : aggHasScore s l m aggs) :
    aggHasScore s l m (addScoreToAgg aggs k l' m' r sc) := by
  obtain ⟨kv, hkv, hl, hm, hs⟩ := h
  unfold addScoreToAgg
  split
  · refine ⟨if kv.1 == k then (kv.1, { kv.2 with elements := kv.2.elements ++ [sc] }) else kv,
      ?_, ?_⟩
    · apply List.mem_map.mpr
      exact ⟨kv, hkv, by split <;> rfl⟩
    · split
      · exact ⟨hl, hm, List.mem_append_left _ hs⟩
      · exact ⟨hl, hm, hs⟩
  · exact ⟨kv, List.mem_append_left _ hkv, hl, hm, hs⟩

theorem any_key_iff {aggs : List (String × AggScore)} {k : String} :
    (aggs.any fun kv => kv.1 == k) = true ↔ k ∈ aggs.map Prod.fst := by
  simp only [List.any_eq_true, List.mem_map]
  constructor
  · rintro ⟨kv, hkv, he⟩
    exact ⟨kv, hkv, beq_iff_eq.mp he⟩
  · rintro ⟨kv, hkv, he⟩
    exact ⟨kv, hkv, beq_iff_eq.mpr he⟩

theorem addScoreToAgg_wf (scores : List RawScore) (aggs : List (String × AggScore))
    (l m r : String) (sc : RawScore)
    (hw : aggWf scores aggs)
    (hl : l = "ALL" ∨ ∃ s ∈ scores, l = s.language)
    (hm : m = "ALL" ∨ ∃ s ∈ scores, m = s.metatype) :
    aggWf scores (addScoreToAgg aggs (l ++ "," ++ m) l m r sc) := by
  obtain ⟨hw1, hw2, hw3⟩ := hw
  unfold addScoreToAgg
  split
  · refine ⟨?_, ?_, ?_⟩
    · intro kv hkv
      obtain ⟨kv0, hkv0, he⟩ := List.mem_map.mp hkv
      subst he
      split
      · exact hw1 kv0 hkv0
      · exact hw1 kv0 hkv0
    · have : (aggs.map fun kv =>
          if kv.1 == l ++ "," ++ m then
            (kv.1, { kv.2 with elements := kv.2.elements ++ [sc] }) else kv).map Prod.fst =
          aggs.map Prod.fst := by
        rw [List.map_map]
        apply List.map_congr_left
        intro kv _
        simp only [Function.comp]
        split <;> rfl
      rw [this]
      exact hw2
    · intro kv hkv
      obtain ⟨kv0, hkv0, he⟩ := List.mem_map.mp hkv
      subst he
      split
      · exact hw3 kv0 hkv0
      · exact hw3 kv0 hkv0
  · rename_i hany
    refine ⟨?_, ?_, ?_⟩
    · intro kv hkv
      rcases List.mem_append.mp hkv with h1 | h1
      · exact hw1 kv h1
      · simp only [List.mem_singleton] at h1
        subst h1
        rfl
    · rw [List.map_append]
      apply List.Nodup.append hw2 (by simp)
      intro a ha hb
      simp only [List.map_cons, List.map_nil, List.mem_singleton] at hb
      subst hb
      exact absurd (any_key_iff.mpr ha) (by simpa using hany)
    · intro kv hkv
      rcases List.mem_append.mp hkv with h1 | h1
      · exact hw3 kv h1
      · simp only [List.mem_singleton] at h1
        subst h1
        exact ⟨hl, hm⟩



theorem addScoreToAgg_establishes (scores : List RawScore)
    (aggs : List (String × AggScore)) (l m r : String) (s : RawScore)
    (hw : aggWf scores aggs)
    (hlc : ',' ∉ l.data)
    (hscores : ∀ t ∈ scores, concreteGroupValue t.language ∧ concreteGroupValue t.metatype) :
    aggHasScore s l m (addScoreToAgg aggs (l ++ "," ++ m) l m r s) := by
  obtain ⟨hw1, hw2, hw3⟩ := hw
  unfold addScoreToAgg
  split
  · rename_i hany
    obtain ⟨kv, hkv, he⟩ := List.any_eq_true.mp hany
    have hkey : kv.1 = l ++ "," ++ m := beq_iff_eq.mp he
    have hlabel := hw1 kv hkv
    have hkvlc : ',' ∉ kv.2.language.data := by
      rcases (hw3 kv hkv).1 with h | ⟨t, ht, he2⟩
      · rw [h]; decide
      · rw [he2]
        exact (hscores t ht).1.2.1
    have hsplit := string_key_inj kv.2.language kv.2.metatype l m hkvlc hlc
      (hlabel ▸ hkey)
    refine ⟨(kv.1, { kv.2 with elements := kv.2.elements ++ [s] }), ?_, ?_⟩
    · apply List.mem_map.mpr
      refine ⟨kv, hkv, ?_⟩
      rw [if_pos he]
    · exact ⟨hsplit.1, hsplit.2, List.mem_append_right _ (by simp)⟩
  · refine ⟨(l ++ "," ++ m, ⟨l, m, r, [s]⟩), ?_, rfl, rfl, by simp⟩
    exact List.mem_append_right _ (by simp)

theorem get_languages_eq (s : RawScore) (scores : List RawScore)
    (h : ∀ t ∈ scores, t.language ≠ "ALL") :
    get_languages s scores = [s.language, "ALL"] := by
  unfold get_languages
  have : ∀ (l : List RawScore) (b : Bool), (∀ t ∈ l, t.language ≠ "ALL") →
      l.foldl (fun f element => if element.language == "ALL" then false else f) b = b := by
    intro l
    induction l with
    | nil => intro b _; rfl
    | cons x xs ih =>
      intro b hx
      rw [List.foldl_cons, if_neg (by simpa using hx x (List.mem_cons_self _ _))]
      exact ih b fun t ht => hx t (List.mem_cons_of_mem _ ht)
  rw [this scores true h]
  rfl

theorem get_metatypes_eq (s : RawScore) (scores : List RawScore)
    (h : ∀ t ∈ scores, t.metatype ≠ "ALL") :
    get_metatypes s scores = [s.metatype, "ALL"] := by
  unfold get_metatypes
  have : ∀ (l : List RawScore) (b : Bool), (∀ t ∈ l, t.metatype ≠ "ALL") →
      l.foldl (fun f element => if element.metatype == "ALL" then false else f) b = b := by
    intro l
    induction l with
    | nil => intro b _; rfl
    | cons x xs ih =>
      intro b hx
      rw [List.foldl_cons, if_neg (by simpa using hx x (List.mem_cons_self _ _))]
      exact ih b fun t ht => hx t (List.mem_cons_of_mem _ ht)
  rw [this scores true h]
  rfl

theorem aggProcessScore_eq (run_id : String) (scores : List RawScore) (s : RawScore)
    (aggs : List (String × AggScore))
    (hconc : ∀ t ∈ scores, concreteGroupValue t.language ∧ concreteGroupValue t.metatype) :
    aggProcessScore run_id scores aggs s =
      addScoreToAgg
        (addScoreToAgg
          (addScoreToAgg
            (addScoreToAgg aggs (s.language ++ "," ++ s.metatype) s.language s.metatype
              run_id s)
            (s.language ++ "," ++ "ALL") s.language "ALL" run_id s)
          ("ALL" ++ "," ++ s.metatype) "ALL" s.metatype run_id s)
        ("ALL" ++ "," ++ "ALL") "ALL" "ALL" run_id s := by
  unfold aggProcessScore
  rw [get_languages_eq s scores fun t ht => (hconc t ht).1.1,
    get_metatypes_eq s scores fun t ht => (hconc t ht).2.1]
  rfl



theorem aggProcessScore_wf (run_id : String) (scores : List RawScore) (s : RawScore)
    (aggs : List (String × AggScore)) (hs : s ∈ scores)
    (hconc : ∀ t ∈ scores, concreteGroupValue t.language ∧ concreteGroupValue t.metatype)
    (hw : aggWf scores aggs) :
    aggWf scores (aggProcessScore run_id scores aggs s) := by
  rw [aggProcessScore_eq run_id scores s aggs hconc]
  apply addScoreToAgg_wf _ _ _ _ _ _ _ (Or.inl rfl) (Or.inl rfl)
  apply addScoreToAgg_wf _ _ _ _ _ _ _ (Or.inl rfl) (Or.inr ⟨s, hs, rfl⟩)
  apply addScoreToAgg_wf _ _ _ _ _ _ _ (Or.inr ⟨s, hs, rfl⟩) (Or.inl rfl)
  exact addScoreToAgg_wf _ _ _ _ _ _ hw (Or.inr ⟨s, hs, rfl⟩) (Or.inr ⟨s, hs, rfl⟩)

theorem aggProcessScore_preserves (run_id : String) (scores : List RawScore)
    (s : RawScore) (aggs : List (String × AggScore)) (s' : RawScore) (l m : String)
    (hconc : ∀ t ∈ scores, concreteGroupValue t.language ∧ concreteGroupValue t.metatype)
    (h : aggHasScore s' l m aggs) :
    aggHasScore s' l m (aggProcessScore run_id scores aggs s) := by
  rw [aggProcessScore_eq run_id scores s aggs hconc]
  exact addScoreToAgg_preserves _ _ _ _ _ _ _ _ _
    (addScoreToAgg_preserves _ _ _ _ _ _ _ _ _
      (addScoreToAgg_preserves _ _ _ _ _ _ _ _ _
        (addScoreToAgg_preserves _ _ _ _ _ _ _ _ _ h)))

theorem aggProcessScore_establishes (run_id : String) (scores : List RawScore)
    (s : RawScore) (aggs : List (String × AggScore)) (hs : s ∈ scores)
    (hconc : ∀ t ∈ scores, concreteGroupValue t.language ∧ concreteGroupValue t.metatype)
    (hw : aggWf scores aggs) :
    ∀ l m, (l = s.language ∨ l = "ALL") → (m = s.metatype ∨ m = "ALL") →
      aggHasScore s l m (aggProcessScore run_id scores aggs s) := by
  have hlc : ',' ∉ s.language.data := (hconc s hs).1.2.1
  have hallc : ',' ∉ ("ALL" : String).data := by decide
  have hw1 : aggWf scores (addScoreToAgg aggs (s.language ++ "," ++ s.metatype) s.language
      s.metatype run_id s) :=
    addScoreToAgg_wf _ _ _ _ _ _ hw (Or.inr ⟨s, hs, rfl⟩) (Or.inr ⟨s, hs, rfl⟩)
  have hw2 : aggWf scores (addScoreToAgg _ (s.language ++ "," ++ "ALL") s.language "ALL"
      run_id s) :=
    addScoreToAgg_wf _ _ _ _ _ _ hw1 (Or.inr ⟨s, hs, rfl⟩) (Or.inl rfl)
  have hw3 : aggWf scores (addScoreToAgg _ ("ALL" ++ "," ++ s.metatype) "ALL" s.metatype
      run_id s) :=
    addScoreToAgg_wf _ _ _ _ _ _ hw2 (Or.inl rfl) (Or.inr ⟨s, hs, rfl⟩)
  intro l m hl hm
  rw [aggProcessScore_eq run_id scores s aggs hconc]
  rcases hl with rfl | rfl <;> rcases hm with rfl | rfl
  · exact addScoreToAgg_preserves _ _ _ _ _ _ _ _ _
      (addScoreToAgg_preserves _ _ _ _ _ _ _ _ _
        (addScoreToAgg_preserves _ _ _ _ _ _ _ _ _
          (addScoreToAgg_establishes scores aggs s.language s.metatype run_id s hw hlc
            hconc)))
  · exact addScoreToAgg_preserves _ _ _ _ _ _ _ _ _
      (addScoreToAgg_preserves _ _ _ _ _ _ _ _ _
        (addScoreToAgg_establishes scores _ s.language "ALL" run_id s hw1 hlc hconc))
  · exact addScoreToAgg_preserves _ _ _ _ _ _ _ _ _
      (addScoreToAgg_establishes scores _ "ALL" s.metatype run_id s hw2 hallc hconc)
  · exact addScoreToAgg_establishes scores _ "ALL" "ALL" run_id s hw3 hallc hconc

theorem agg_fold_spec (run_id : String) (scores : List RawScore)
    (hconc : ∀ t ∈ scores, concreteGroupValue t.language ∧ concreteGroupValue t.metatype) :
    ∀ (rest : List RawScore), (∀ t ∈ rest, t ∈ scores) →
      ∀ aggs, aggWf scores aggs →
      aggWf scores (rest.foldl (aggProcessScore run_id scores) aggs) ∧
      (∀ s' l m, aggHasScore s' l m aggs →
        aggHasScore s' l m (rest.foldl (aggProcessScore run_id scores) aggs)) ∧
      (∀ s ∈ rest, ∀ l m, (l = s.language ∨ l = "ALL") → (m = s.metatype ∨ m = "ALL") →
        aggHasScore s l m (rest.foldl (aggProcessScore run_id scores) aggs))
  | [], _, aggs, hw => ⟨hw, fun _ _ _ h => h, by simp⟩
  | x :: rest, hsub, aggs, hw => by
    have hx : x ∈ scores := hsub x (List.mem_cons_self _ _)
    have hsub' : ∀ t ∈ rest, t ∈ scores := fun t ht => hsub t (List.mem_cons_of_mem _ ht)
    have hw' : aggWf scores (aggProcessScore run_id scores aggs x) :=
      aggProcessScore_wf run_id scores x aggs hx hconc hw
    obtain ⟨ih1, ih2, ih3⟩ := agg_fold_spec run_id scores hconc rest hsub' _ hw'
    rw [List.foldl_cons]
    refine ⟨ih1, ?_, ?_⟩
    · intro s' l m h
      exact ih2 s' l m (aggProcessScore_preserves run_id scores x aggs s' l m hconc h)
    · intro s hsmem l m hl hm
      rcases List.mem_cons.mp hsmem with rfl | hsmem'
      · exact ih2 s l m (aggProcessScore_establishes run_id scores s aggs hx hconc hw l m hl hm)
      · exact ih3 s hsmem' l m hl hm



theorem get_languages_flag :
    ∀ (l : List RawScore) (b : Bool),
      l.foldl (fun f element => if element.language == "ALL" then false else f) b =
        (b && !(l.any fun t => t.language == "ALL"))
  | [], b => by simp
  | x :: xs, b => by
    rw [List.foldl_cons, get_languages_flag xs _]
    by_cases h : x.language == "ALL"
    · simp [h]
    · simp [h]

theorem get_metatypes_flag :
    ∀ (l : List RawScore) (b : Bool),
      l.foldl (fun f element => if element.metatype == "ALL" then false else f) b =
        (b && !(l.any fun t => t.metatype == "ALL"))
  | [], b => by simp
  | x :: xs, b => by
    rw [List.foldl_cons, get_metatypes_flag xs _]
    by_cases h : x.metatype == "ALL"
    · simp [h]
    · simp [h]

/-- C2 counterexample. -/
theorem aggregate_order_counterexample :
    ((aggregate_scores "run1" [⟨"en", "Entity", 1/2⟩]).2.map fun a =>
        (a.language, a.metatype)) =
      [("ALL", "Entity"), ("ALL", "ALL"), ("en", "Entity"), ("en", "ALL")] ∧
    (((aggregate_scores "run1" [⟨"en", "Entity", 1/2⟩]).2.getLast?).map fun a =>
        (a.language, a.metatype)) = some ("en", "ALL") ∧
    ("en", "ALL") ≠ ("ALL", "ALL") := by
  refine ⟨by with_unfolding_all decide, by with_unfolding_all decide, by decide⟩

/-- C2 amended. -/
theorem aggregate_scores_spec :
    (∀ (s : RawScore) (scores : List RawScore),
      get_languages s scores =
        if scores.any (fun t => t.language == "ALL") then [s.language]
        else [s.language, "ALL"]) ∧
    (∀ (s : RawScore) (scores : List RawScore),
      get_metatypes s scores =
        if scores.any (fun t => t.metatype == "ALL") then [s.metatype]
        else [s.metatype, "ALL"]) ∧
    (∀ (run_id : String) (scores : List RawScore),
      (∀ s ∈ scores, concreteGroupValue s.language ∧ concreteGroupValue s.metatype) →
      ((aggregate_scores run_id scores).1 = scores ∧
       (∀ s ∈ scores, ∀ l m : String,
         (l = s.language ∨ l = "ALL") → (m = s.metatype ∨ m = "ALL") →
         ∃ a ∈ (aggregate_scores run_id scores).2,
           a.language = l ∧ a.metatype = m ∧ s ∈ a.elements) ∧
       List.Pairwise (fun a b => pyStrLt (orderKey b) (orderKey a) = false)
         (aggregate_scores run_id scores).2 ∧
       (scores ≠ [] → ∃ a, ((aggregate_scores run_id scores).2).getLast? = some a ∧
         a.language = "ALL" ∧ a.metatype = "ALL"))) := by
  refine ⟨?_, ?_, ?_⟩
  · intro s scores
    unfold get_languages
    rw [get_languages_flag]
    by_cases h : scores.any fun t => t.language == "ALL"
    · simp [h]
    · simp [h]
  · intro s scores
    unfold get_metatypes
    rw [get_metatypes_flag]
    by_cases h : scores.any fun t => t.metatype == "ALL"
    · simp [h]
    · simp [h]
  · intro run_id scores hconc
    have hwnil : aggWf scores [] := ⟨by simp, by simp, by simp⟩
    obtain ⟨hwf, -, hmem⟩ :=
      agg_fold_spec run_id scores hconc scores (fun t ht => ht) [] hwnil
    set final := scores.foldl (aggProcessScore run_id scores) [] with hfinal
    have hout2 : (aggregate_scores run_id scores).2 =
        sortByLt (fun a b => pyStrLt (orderKey a) (orderKey b)) (final.map Prod.snd) := rfl
    refine ⟨rfl, ?_, ?_, ?_⟩
    · intro s hs l m hl hm
      obtain ⟨kv, hkv, h1, h2, h3⟩ := hmem s hs l m hl hm
      refine ⟨kv.2, ?_, h1, h2, h3⟩
      rw [hout2, mem_sortByLt]
      exact List.mem_map_of_mem Prod.snd hkv
    · rw [hout2]
      exact pairwise_sortByLt (fun a b => pyStrLt (orderKey a) (orderKey b))
        (fun a b h => pyStrLt_asymm _ _ h)
        (fun a b c h1 h2 => pyStrLt_trans _ _ _ h1 h2) _
    · intro hne
      obtain ⟨s0, hs0⟩ : ∃ s0, s0 ∈ scores := by
        cases scores with
        | nil => exact absurd rfl hne
        | cons a l => exact ⟨a, List.mem_cons_self _ _⟩
      obtain ⟨kv, hkv, h1, h2, -⟩ := hmem s0 hs0 "ALL" "ALL" (Or.inr rfl) (Or.inr rfl)
      refine ⟨kv.2, ?_, h1, h2⟩
      rw [hout2]
      apply getLast_of_top (fun a b => pyStrLt (orderKey a) (orderKey b)) _ kv.2
      · exact pairwise_sortByLt (fun a b => pyStrLt (orderKey a) (orderKey b))
          (fun a b h => pyStrLt_asymm _ _ h)
          (fun a b c h1 h2 => pyStrLt_trans _ _ _ h1 h2) _
      · rw [mem_sortByLt]
        exact List.mem_map_of_mem Prod.snd hkv
      · intro y hy
        rw [mem_sortByLt] at hy
        obtain ⟨kv', hkv', he⟩ := List.mem_map.mp hy
        by_cases hya : y.language = "ALL" ∧ y.metatype = "ALL"
        · left
          have hkeys : kv'.1 = kv.1 := by
            rw [hwf.1 kv' hkv', hwf.1 kv hkv, he, h1, h2, hya.1, hya.2]
          rw [← he]
          exact congrArg Prod.snd (nodup_keys_unique final hwf.2.1 kv' hkv' kv hkv hkeys)
        · right
          have htopkey : orderKey kv.2 = "_ALL:_ALL" := orderKey_allall kv.2 h1 h2
          show pyStrLt (orderKey y) (orderKey kv.2) = true
          rw [htopkey]
          apply orderKey_lt_allall y
          · rcases (hwf.2.2 kv' hkv').1 with h | ⟨t, ht, he2⟩
            · left; rw [← he]; exact h
            · right; rw [← he, he2]; exact (hconc t ht).1
          · rcases (hwf.2.2 kv' hkv').2 with h | ⟨t, ht, he2⟩
            · left; rw [← he]; exact h
            · right; rw [← he, he2]; exact (hconc t ht).2
          · exact hya



/-- C2 witness. -/
theorem aggregate_scores_spec_witness :
    (∃ a, ((aggregate_scores "run1" [⟨"ENG", "Entity", 1⟩]).2).getLast? = some a ∧
      a.language = "ALL" ∧ a.metatype = "ALL") ∧
    (∃ a ∈ (aggregate_scores "run1" [⟨"ENG", "Entity", 1⟩]).2,
      a.language = "ENG" ∧ a.metatype = "ALL" ∧
        (⟨"ENG", "Entity", 1⟩ : RawScore) ∈ a.elements) := by
  have h := aggregate_scores_spec.2.2 "run1" [⟨"ENG", "Entity", 1⟩]
    (by intro s hs; simp only [List.mem_singleton] at hs; subst hs
        exact ⟨by decide, by decide⟩)
  refine ⟨h.2.2.2 (by simp), ?_⟩
  exact h.2.1 ⟨"ENG", "Entity", 1⟩ (List.mem_singleton.mpr rfl) "ENG" "ALL"
    (Or.inl rfl) (Or.inr rfl)

example : scoreEventsV2 gatNone v2StateRelation = [.ANNOTATED_TYPES_INFO "D1" ""] := by
  with_unfolding_all decide

example : (⟨"run1", "D1", "ENG", "Entity", "G1", "S1", 0⟩ : ScoreRow) ∈
    scoreRowsV2 gatNone v2StateEntity := by
  with_unfolding_all decide

example : SEvent.DEFAULT_CRITICAL_ERROR "aligned_similarity=0" ∈
    scoreEventsV2 gatNone v2StateEntity := by
  with_unfolding_all decide



/-- C7 counterexample -/
theorem sim_zero_not_logged_for_relation :
    v2StateRelation.gold_to_system "D1" = some [("G1", ⟨"S1", 0⟩)] ∧
    "D1" ∈ v2StateRelation.core_documents ∧
    (AlignEntry.mk "S1" 0).aligned_to ≠ "None" ∧
    (AlignEntry.mk "S1" 0).aligned_similarity = 0 ∧
    (scoreEventsV2 gatNone v2StateRelation).all (fun e => !(isCriticalEvent e)) = true := by
  refine ⟨by with_unfolding_all decide, by decide, by decide, by decide,
    by with_unfolding_all decide⟩

/-- C7 amended -/
theorem sim_zero_critical_spec :
    (∀ (gat : List String → String → Option String) (st : V2State) (d : String),
      d ∈ st.core_documents → ∀ l, st.gold_to_system d = some l →
      ∀ p ∈ l, p.1 ≠ "None" →
      (st.gold_cluster_metatype d p.1 = some "Entity" ∨
        st.gold_cluster_metatype d p.1 = some "Event") →
      p.2.aligned_to ≠ "None" → p.2.aligned_similarity = 0 →
      SEvent.DEFAULT_CRITICAL_ERROR "aligned_similarity=0" ∈ scoreEventsV2 gat st) ∧
    (∀ (gat : List String → String → Option String) (st : V2State) (d : String),
      d ∈ st.core_documents → ∀ l, st.system_to_gold d = some l →
      ∀ p ∈ l, p.1 ≠ "None" →
      (st.system_cluster_metatype d p.1 = some "Entity" ∨
        st.system_cluster_metatype d p.1 = some "Event") →
      p.2.aligned_to ≠ "None" → p.2.aligned_similarity = 0 →
      SEvent.DEFAULT_CRITICAL_ERROR "aligned_similarity=0" ∈ scoreEventsV2 gat st) ∧
    (∀ (gat : List String → String → Option String) (st : V2State)
        (σ₁ σ₂ : String → String → AlignEntry → ℚ),
      scoreRowsV2 gat
        { st with gold_to_system := remapSims σ₁ st.gold_to_system,
                  system_to_gold := remapSims σ₂ st.system_to_gold } =
        scoreRowsV2 gat st) := by
  refine ⟨?_, ?_, ?_⟩
  · intro gat st d hd l hl p hp hg hmt ha hsim
    apply List.mem_flatMap.mpr
    refine ⟨d, hd, ?_⟩
    apply List.mem_append_left
    apply List.mem_append_right
    rw [hl]
    apply List.mem_flatMap.mpr
    refine ⟨p, hp, ?_⟩
    unfold v2GoldEvents
    rw [if_neg (by simpa using hg), if_pos hmt, if_pos (by simpa using ha)]
    apply List.mem_append_left
    apply List.mem_append_left
    rw [if_pos hsim]
    exact List.mem_singleton.mpr rfl
  · intro gat st d hd l hl p hp hs hmt ha hsim
    apply List.mem_flatMap.mpr
    refine ⟨d, hd, ?_⟩
    apply List.mem_append_right
    rw [hl]
    apply List.mem_flatMap.mpr
    refine ⟨p, hp, ?_⟩
    unfold v2SystemEvents
    rw [if_neg (by simpa using hs), if_pos hmt, if_neg (by simpa using ha), if_pos hsim]
    exact List.mem_singleton.mpr rfl
  · intro gat st σ₁ σ₂
    unfold scoreRowsV2
    apply congrArg
    funext d
    simp only [remapSims]
    cases h1 : st.gold_to_system d <;> cases h2 : st.system_to_gold d <;>
      simp only [h1, h2, Option.map_none', Option.map_some', List.filterMap_map] <;> rfl



/-- C7 witness -/
theorem sim_zero_critical_spec_witness :
    SEvent.DEFAULT_CRITICAL_ERROR "aligned_similarity=0" ∈
      scoreEventsV2 gatNone v2StateEntity :=
  sim_zero_critical_spec.1 gatNone v2StateEntity "D1" (by decide)
    [("G1", ⟨"S1", 0⟩)] (by with_unfolding_all decide) ("G1", ⟨"S1", 0⟩)
    (by with_unfolding_all decide) (by decide)
    (Or.inl (by with_unfolding_all decide)) (by decide) (by decide)

/-- C8 -/
theorem type_metric_rows_metatype_spec :
    (∀ (gat : List String → String → Option String) (st : V2State),
      ∀ row ∈ scoreRowsV2 gat st,
        (row.metatype = "Entity" ∨ row.metatype = "Event") ∧
        row.document_id ∈ st.core_documents ∧
        (row.gold_cluster_id ≠ "None" →
          st.gold_cluster_metatype row.document_id row.gold_cluster_id = some row.metatype) ∧
        (row.gold_cluster_id = "None" →
          st.system_cluster_metatype row.document_id row.system_cluster_id =
            some row.metatype)) ∧
    (∀ (gat : List String → String → Option String) (st : V2State) (d g : String),
      g ≠ "None" → st.gold_cluster_metatype d g = some "Relation" →
      ∀ row ∈ scoreRowsV2 gat st, ¬(row.document_id = d ∧ row.gold_cluster_id = g)) ∧
    (∀ (st : V4State), ∀ row ∈ scoreRowsV4 st,
      (row.metatype = "Entity" ∨ row.metatype = "Event") ∧
      row.document_id ∈ st.core_documents ∧
      (v4Metatype st row.document_id row.system_cluster_id row.gold_cluster_id).1 =
        some row.metatype) := by
  have hv2 : ∀ (gat : List String → String → Option String) (st : V2State),
      ∀ row ∈ scoreRowsV2 gat st,
        (row.metatype = "Entity" ∨ row.metatype = "Event") ∧
        row.document_id ∈ st.core_documents ∧
        (row.gold_cluster_id ≠ "None" →
          st.gold_cluster_metatype row.document_id row.gold_cluster_id = some row.metatype) ∧
        (row.gold_cluster_id = "None" →
          st.system_cluster_metatype row.document_id row.system_cluster_id =
            some row.metatype) := by
    intro gat st row hrow
    obtain ⟨d, hd, hmem⟩ := List.mem_flatMap.mp hrow
    rcases List.mem_append.mp hmem with hside | hside
    · rcases hg2s : st.gold_to_system d with _ | l
      · rw [hg2s] at hside; simp at hside
      · rw [hg2s] at hside
        obtain ⟨p, hp, hrweq⟩ := List.mem_filterMap.mp hside
        unfold v2GoldRow at hrweq
        by_cases h1 : (p.1 == "None") = true
        · rw [if_pos h1] at hrweq; simp at hrweq
        · rw [if_neg h1] at hrweq
          simp only at hrweq
          by_cases h2 : st.gold_cluster_metatype d p.1 = some "Entity" ∨
              st.gold_cluster_metatype d p.1 = some "Event"
          · rw [if_pos h2] at hrweq
            obtain hre := Option.some.inj hrweq
            subst hre
            refine ⟨?_, hd, ?_, ?_⟩
            · rcases h2 with h2 | h2 <;> simp [h2]
            · intro _
              simp only
              rcases h2 with h2 | h2 <;> rw [h2] <;> rfl
            · intro hgn
              simp only at hgn
              exact absurd hgn (by simpa using h1)
          · rw [if_neg h2] at hrweq; simp at hrweq
    · rcases hs2g : st.system_to_gold d with _ | l
      · rw [hs2g] at hside; simp at hside
      · rw [hs2g] at hside
        obtain ⟨p, hp, hrweq⟩ := List.mem_filterMap.mp hside
        unfold v2SystemRow at hrweq
        by_cases h1 : (p.1 == "None") = true
        · rw [if_pos h1] at hrweq; simp at hrweq
        · rw [if_neg h1] at hrweq
          simp only at hrweq
          by_cases h2 : st.system_cluster_metatype d p.1 = some "Entity" ∨
              st.system_cluster_metatype d p.1 = some "Event"
          · rw [if_pos h2] at hrweq
            by_cases h3 : (p.2.aligned_to == "None") = true
            · rw [if_pos h3] at hrweq
              obtain hre := Option.some.inj hrweq
              subst hre
              refine ⟨?_, hd, ?_, ?_⟩
              · rcases h2 with h2 | h2 <;> simp [h2]
              · intro hgn
                simp only at hgn
                exact absurd (beq_iff_eq.mp h3) hgn
              · intro _
                simp only
                rcases h2 with h2 | h2 <;> rw [h2] <;> rfl
            · rw [if_neg h3] at hrweq; simp at hrweq
          · rw [if_neg h2] at hrweq; simp at hrweq
  refine ⟨hv2, ?_, ?_⟩
  · rintro gat st d g hgnone hrel row hrow ⟨hrd, hrg⟩
    obtain ⟨hmt, -, hgold, -⟩ := hv2 gat st row hrow
    by_cases hgn : row.gold_cluster_id = "None"
    · rw [hgn] at hrg
      exact hgnone hrg.symm
    · have hsome := hgold hgn
      rw [hrd, hrg, hrel] at hsome
      obtain h := Option.some.inj hsome
      rcases hmt with hmt | hmt <;> rw [hmt] at h <;> simp at h
  · intro st row hrow
    obtain ⟨d, hd, hmem⟩ := List.mem_flatMap.mp hrow
    by_cases hdm : st.document_in_mappings d = true
    · rw [if_pos hdm] at hmem
      rcases List.mem_append.mp hmem with hside | hside
      · rcases hg2s : st.gold_to_system d with _ | l
        · rw [hg2s] at hside; simp at hside
        · rw [hg2s] at hside
          obtain ⟨p, hp, hrweq⟩ := List.mem_filterMap.mp hside
          unfold v4GoldRow at hrweq
          by_cases h1 : (p.1 == "None") = true
          · rw [if_pos h1] at hrweq; simp at hrweq
          · rw [if_neg h1] at hrweq
            simp only at hrweq
            by_cases h2 : (v4Metatype st d p.2.aligned_to p.1).1 = some "Entity" ∨
                (v4Metatype st d p.2.aligned_to p.1).1 = some "Event"
            · rw [if_pos h2] at hrweq
              obtain hre := Option.some.inj hrweq
              subst hre
              refine ⟨?_, hd, ?_⟩
              · rcases h2 with h2 | h2 <;> simp [h2]
              · simp only
                rcases h2 with h2 | h2 <;> rw [h2] <;> rfl
            · rw [if_neg h2] at hrweq; simp at hrweq
      · rcases hs2g : st.system_to_gold d with _ | l
        · rw [hs2g] at hside; simp at hside
        · rw [hs2g] at hside
          obtain ⟨p, hp, hrweq⟩ := List.mem_filterMap.mp hside
          unfold v4SystemRow at hrweq
          by_cases h1 : (p.1 == "None") = true
          · rw [if_pos h1] at hrweq; simp at hrweq
          · rw [if_neg h1] at hrweq
            simp only at hrweq
            by_cases h2 : (v4Metatype st d p.1 p.2.aligned_to).1 = some "Entity" ∨
                (v4Metatype st d p.1 p.2.aligned_to).1 = some "Event"
            · rw [if_pos h2] at hrweq
              by_cases h3 : (p.2.aligned_to == "None") = true
              · rw [if_pos h3] at hrweq
                obtain hre := Option.some.inj hrweq
                subst hre
                refine ⟨?_, hd, ?_⟩
                · rcases h2 with h2 | h2 <;> simp [h2]
                · simp only
                  rcases h2 with h2 | h2 <;> rw [h2] <;> rfl
              · rw [if_neg h3] at hrweq; simp at hrweq
            · rw [if_neg h2] at hrweq; simp at hrweq
    · rw [if_neg hdm] at hmem
      simp at hmem



/-- C8 witness -/
theorem type_metric_rows_metatype_spec_witness :
    (⟨"run1", "D1", "ENG", "Entity", "G1", "S1", 0⟩ : ScoreRow).metatype = "Entity" ∨
    (⟨"run1", "D1", "ENG", "Entity", "G1", "S1", 0⟩ : ScoreRow).metatype = "Event" :=
  (type_metric_rows_metatype_spec.1 gatNone v2StateEntity
    ⟨"run1", "D1", "ENG", "Entity", "G1", "S1", 0⟩ (by with_unfolding_all decide)).1

end Aida

namespace Aida

theorem acdcStep_mono {α β : Type} (run_id : String) (r : String → α) (a : String → β)
    (acc acc' : List ACDCScoreRow × List (String × ℚ × ℕ)) (q : String)
    (h : acdcStep run_id r a acc q = .ok acc') : ∀ y ∈ acc.1, y ∈ acc'.1 := by
  unfold acdcStep at h
  cases he : acdcGetEntityId q with
  | error e => rw [he] at h; simp [Bind.bind, Except.bind] at h
  | ok eid =>
    rw [he] at h
    simp only [Bind.bind, Except.bind, acdcGetScore] at h
    cases hs : pyInt (pyLastChars 4 q) with
    | none => rw [hs] at h; simp at h
    | some n =>
      rw [hs] at h
      simp only [pure, Except.pure, Except.ok.injEq] at h
      subst h
      intro y hy
      exact List.mem_append_left _ hy

theorem acdcFold_mono {α β : Type} (run_id : String) (r : String → α) (a : String → β) :
    ∀ (queries : List String) (acc res : List ACDCScoreRow × List (String × ℚ × ℕ)),
      queries.foldlM (acdcStep run_id r a) acc = .ok res → ∀ y ∈ acc.1, y ∈ res.1
  | [], acc, res, h => by
    simp only [List.foldlM_nil, pure, Except.pure, Except.ok.injEq] at h
    subst h
    exact fun y hy => hy
  | x :: xs, acc, res, h => by
    rw [List.foldlM_cons] at h
    cases hst : acdcStep run_id r a acc x with
    | error e => rw [hst] at h; simp [Bind.bind, Except.bind] at h
    | ok acc1 =>
      rw [hst] at h
      simp only [Bind.bind, Except.bind] at h
      intro y hy
      exact acdcFold_mono run_id r a xs acc1 res h y (acdcStep_mono run_id r a acc acc1 x hst y hy)

theorem acdcFold_mem {α β : Type} (run_id : String) (r : String → α) (a : String → β) :
    ∀ (queries : List String) (acc res : List ACDCScoreRow × List (String × ℚ × ℕ)),
      queries.foldlM (acdcStep run_id r a) acc = .ok res →
      ∀ q ∈ queries, ∀ (n d : Int),
        pyInt (pyLastChars 4 q) = some n → pyInt (pyLastChars 1 q) = some d →
        (⟨run_id, q, toString (d + 200), (n : ℚ) * (1 / 10000), false⟩ : ACDCScoreRow) ∈ res.1
  | [], acc, res, h, q, hq, _, _, _, _ => absurd hq (by simp)
  | x :: xs, acc, res, h, q, hq, n, d, h4, h1 => by
    rw [List.foldlM_cons] at h
    rcases List.mem_cons.mp hq with rfl | hq'
    · have hst : acdcStep run_id r a acc q =
          .ok (acc.1 ++ [⟨run_id, q, toString (d + 200), (n : ℚ) * (1 / 10000), false⟩],
            ["ALL-Micro", q].foldl
              (fun aggs query_id_key =>
                ["Summary", toString (d + 200)].foldl
                  (fun aggs entity_id_key =>
                    acdcBump aggs (entity_id_key ++ ":" ++ query_id_key)
                      ((n : ℚ) * (1 / 10000)))
                  aggs)
              acc.2) := by
        unfold acdcStep acdcGetEntityId acdcGetScore
        rw [h4, h1]
        rfl
      rw [hst] at h
      simp only [Bind.bind, Except.bind] at h
      exact acdcFold_mono run_id r a xs _ res h _ (List.mem_append_right _ (by simp))
    · cases hst : acdcStep run_id r a acc x with
      | error e => rw [hst] at h; simp [Bind.bind, Except.bind] at h
      | ok acc1 =>
        rw [hst] at h
        simp only [Bind.bind, Except.bind] at h
        exact acdcFold_mem run_id r a xs acc1 res h q hq' n d h4 h1

theorem acdcSummary_mono (run_id : String) (aggs : List (String × ℚ × ℕ)) :
    ∀ (keys : List String) (acc res : List ACDCScoreRow × ℚ × ℕ × Option String),
      keys.foldlM (acdcSummaryStep run_id aggs) acc = .ok res → ∀ y ∈ acc.1, y ∈ res.1
  | [], acc, res, h => by
    simp only [List.foldlM_nil, pure, Except.pure, Except.ok.injEq] at h
    subst h
    exact fun y hy => hy
  | k :: ks, acc, res, h => by
    rw [List.foldlM_cons] at h
    cases hst : acdcSummaryStep run_id aggs acc k with
    | error e => rw [hst] at h; simp [Bind.bind, Except.bind] at h
    | ok acc1 =>
      rw [hst] at h
      simp only [Bind.bind, Except.bind] at h
      intro y hy
      refine acdcSummary_mono run_id aggs ks acc1 res h y ?_
      unfold acdcSummaryStep at hst
      cases hsp : pySplitColon2 k with
      | error e => rw [hsp] at hst; simp [Bind.bind, Except.bind] at hst
      | ok ekqk =>
        rw [hsp] at hst
        simp only [Bind.bind, Except.bind] at hst
        by_cases hqk : (ekqk.2 != "ALL-Micro") = true
        · rw [if_pos hqk] at hst
          simp only [pure, Except.pure, Except.ok.injEq] at hst
          subst hst
          exact hy
        · rw [if_neg hqk] at hst
          simp only [pure, Except.pure, Except.ok.injEq] at hst
          subst hst
          exact List.mem_append_left _ hy

/-- C10 -/
theorem acdc_scorer_stub_spec :
    (∀ (α β α' β' : Type) (run_id : String) (queries : List String)
        (r1 : String → α) (a1 : String → β) (r2 : String → α') (a2 : String → β'),
      acdcScoreResponses run_id queries r1 a1 = acdcScoreResponses run_id queries r2 a2) ∧
    (∀ (α β : Type) (run_id : String) (queries : List String)
        (r : String → α) (a : String → β) (out : List ACDCScoreRow),
      acdcScoreResponses run_id queries r a = .ok out →
      ∀ q ∈ queries, ∀ (n d : Int),
        pyInt (pyLastChars 4 q) = some n → pyInt (pyLastChars 1 q) = some d →
        (⟨run_id, q, toString (d + 200), (n : ℚ) * (1 / 10000), false⟩ : ACDCScoreRow) ∈ out) := by
  constructor
  · intro α β α' β' run_id queries r1 a1 r2 a2
    rfl
  · intro α β run_id queries r a out h q hq n d h4 h1
    unfold acdcScoreResponses at h
    cases hfp : acdcFirstPass run_id queries r a with
    | error e => rw [hfp] at h; simp [Bind.bind, Except.bind] at h
    | ok ra =>
      rw [hfp] at h
      simp only [Bind.bind, Except.bind] at h
      cases hsf : (sortByLt pyStrLt (ra.2.map Prod.fst)).foldlM
          (acdcSummaryStep run_id ra.2) (ra.1, 0, 0, none) with
      | error e =>
        rw [hsf] at h
        simp at h
      | ok sres =>
        rw [hsf] at h
        simp only at h
        cases hlk : sres.2.2.2 with
        | none => rw [hlk] at h; simp at h
        | some ek =>
          rw [hlk] at h
          simp only [Except.ok.injEq] at h
          subst h
          apply List.mem_append_left
          rw [mem_sortByLt]
          apply acdcSummary_mono run_id ra.2 _ _ _ hsf
          exact acdcFold_mem run_id r a queries ([], []) ra hfp q hq n d h4 h1

set_option maxRecDepth 2000

/-- C10 witness: for the concrete run "run1" and the single query "01" (whose last
four characters parse as 1 and whose last character parses as 1), the scorer output
contains the row (run "run1", query "01", entity "201", AP 1/10000, non-summary),
with the responses and assessments instantiated as constant-zero maps. -/
theorem acdc_scorer_stub_spec_witness :
    (⟨"run1", "01", toString ((1 : Int) + 200), ((1 : Int) : ℚ) * (1 / 10000), false⟩ :
      ACDCScoreRow) ∈
      [⟨"run1", "01", "201", 1 / 10000, false⟩,
       ⟨"run1", "ALL-Micro", "201", 1 / 10000, true⟩,
       ⟨"run1", "ALL-Micro", "Summary", 1 / 10000, true⟩,
       ⟨"run1", "ALL-Macro", "Summary", 1 / 10000, true⟩] :=
  acdc_scorer_stub_spec.2 ℕ ℕ "run1" ["01"] (fun _ => 0) (fun _ => 0) _
    (by with_unfolding_all exact rfl) "01" (by decide) 1 1
    (by with_unfolding_all decide) (by with_unfolding_all decide)

end Aida
